import Mathlib

/-!
# Order placement, stock reservation and status history

A shallow embedding of the order flow of the storefront backend:

* `backend/models/Product.js`  : the product document, its pre-save hook and `reduceStock`;
* `backend/models/Order.js`    : the order document, its pre-save hook, `updateStatus`,
  `calculateTotals` and `canBeCancelled`;
* `backend/routes/orders.js`   : the handlers `POST /`, `PUT /:id/cancel`, `PUT /:id/status`
  and `GET /track/:orderNumber`.

Conventions of the embedding.

* The two collections are explicit state. The product collection is a finite map from `_id` to
  document (`Catalog`); the order collection is the list of documents in insertion order and the
  `_id` of an order is its position in that list (orders are never deleted).
* A JavaScript number is an IEEE 754 double. An amount of money is the rational value of a
  double, and every arithmetic operation on amounts rounds its exact result to the nearest
  double (`roundDouble`, `jsAdd`, `jsSub`, `jsMul`); a decimal literal such as `0.08` denotes
  the double nearest to it. Stock and quantities are integers, which doubles hold exactly up to
  2^53. Infinity and NaN are not represented.
* A string sent where the library expects an `ObjectId` is cast (`castObjectId`); `findById`
  throws when the cast fails, and the `catch` block of the handler answers with status 500.
* A handler is a function from the state, the request and the environment readings of the
  request (clock, random draw) to a response and the state it leaves behind. A thrown exception
  is an `Except.error` carrying the message, together with the state at the time of the throw.
* The document library is embedded by what the code relies on: `findById`, `save` (the schema
  validators first, then the pre-save hooks, then the store write), `create` (construction with
  the schema defaults, then `save`), `findByIdAndUpdate` with `$inc` (a direct store update that
  runs neither hooks nor validators), and the change tracking behind `isModified` and `isNew`.
-/

namespace ECommerce

/-! ## JavaScript numbers and identifiers -/

/-- Document identifier of a product or of a user, in the form the library prints it: 24
hexadecimal digits in lower case. -/
abbrev ObjectId := String

/-- The integer nearest to `x`; the even one of the two nearest when `x` lies halfway. -/
def roundHalfEven (x : ℚ) : Int :=
  let f := ⌊x⌋
  let r := x - f
  if r < 1 / 2 then f else if 1 / 2 < r then f + 1 else if f % 2 = 0 then f else f + 1

/-- The value of the IEEE 754 double nearest to `q`: 53 significant binary digits, round to
nearest, ties to even, gradual underflow below `2 ^ (-1022)`. -/
def roundDouble (q : ℚ) : ℚ :=
  if q = 0 then 0
  else
    let e : Int := max (Int.log 2 |q|) (-1022)
    (roundHalfEven (q / (2 : ℚ) ^ (e - 52)) : ℚ) * (2 : ℚ) ^ (e - 52)

/-- The JavaScript expression `a + b` on numbers. -/
def jsAdd (a b : ℚ) : ℚ := roundDouble (a + b)

/-- The JavaScript expression `a - b` on numbers. -/
def jsSub (a b : ℚ) : ℚ := roundDouble (a - b)

/-- The JavaScript expression `a * b` on numbers. -/
def jsMul (a b : ℚ) : ℚ := roundDouble (a * b)

/-- Whether `c` is a hexadecimal digit. -/
def isHexDigit (c : Char) : Bool :=
  c.isDigit || (decide ('a' ≤ c) && decide (c ≤ 'f')) ||
    (decide ('A' ≤ c) && decide (c ≤ 'F'))

/-- The cast of a string to an `ObjectId`, which accepts a single string of 12 bytes or a
string of 24 hexadecimal digits: a string of 24 hexadecimal digits denotes the identifier with
those digits, a string of 12 characters denotes the identifier whose 12 bytes are the codes of
its characters, and every other string is rejected. -/
def castObjectId (s : String) : Option ObjectId :=
  if s.length = 24 ∧ s.data.all isHexDigit = true then
    some (String.mk (s.data.map Char.toLower))
  else if s.length = 12 then
    some (String.mk (s.data.map
      (fun c => [Nat.digitChar (c.toNat % 256 / 16), Nat.digitChar (c.toNat % 256 % 16)])).flatten)
  else none

/-- The message of the exception `findById` throws when the cast of its argument fails (the
message of the library goes on with the value and the path). -/
def castErrorMessage : String := "Cast to ObjectId failed"

/-! ## Data model -/

/-- Calendar reading of the clock (UTC), as `new Date()` returns it. -/
structure Date where
  year : Nat
  month : Nat
  day : Nat
  millisOfDay : Nat
deriving DecidableEq, Repr

/-- Environment readings available to one request: the clock and the value of
`Math.random()`, a double. -/
structure Env where
  now : Date
  random : ℚ

/-- Product document (`productSchema`), restricted to the paths the order flow reads or writes.
`images` holds the `url` of each image. -/
structure Product where
  name : String
  price : ℚ
  stock : Int
  inStock : Bool
  isActive : Bool
  images : List String
  icon : String
deriving DecidableEq

/-- The product collection: a finite map from `_id` to document. -/
abbrev Catalog := ObjectId → Option Product

/-- Order line snapshot (`orderItemSchema`). -/
structure OrderItem where
  product : ObjectId
  name : String
  price : ℚ
  quantity : Int
  image : String
  icon : String
deriving DecidableEq

/-- Postal address (`addressSchema`). -/
structure Address where
  fullName : String
  phone : String
  street : String
  city : String
  state : String
  zipCode : String
  country : Option String
deriving DecidableEq, Repr

/-- One entry of `statusHistory`. -/
structure StatusEntry where
  status : String
  timestamp : Date
  note : Option String
  updatedBy : Option ObjectId
deriving DecidableEq, Repr

/-- The `discount` sub-document of an order. -/
structure Discount where
  code : Option String
  amount : ℚ
deriving DecidableEq

/-- The `paymentDetails` sub-document of an order. -/
structure PaymentDetails where
  transactionId : Option String
  paidAt : Option Date
  method : Option String
deriving DecidableEq

/-- Order document (`orderSchema`). An empty `orderNumber` stands for one not yet assigned. -/
structure Order where
  orderNumber : String
  user : ObjectId
  customerEmail : String
  items : List OrderItem
  subtotal : ℚ
  tax : ℚ
  shippingCost : ℚ
  discount : Discount
  total : ℚ
  shippingAddress : Option Address
  billingAddress : Option Address
  paymentMethod : String
  paymentStatus : String
  paymentDetails : PaymentDetails
  status : String
  statusHistory : List StatusEntry
  shippingMethod : String
  trackingNumber : Option String
  carrier : Option String
  estimatedDelivery : Option Date
  deliveredAt : Option Date
  customerNote : Option String
  adminNote : Option String
  isGift : Bool
  giftMessage : Option String
deriving DecidableEq

/-- The database: the product collection and the order collection. -/
structure State where
  products : Catalog
  orders : List Order

/-- Body of a JSON response. -/
inductive Body where
  /-- The body `success: false, error`. -/
  | error (error : String)
  /-- The body `success: true, message`. -/
  | message (message : String)
  /-- The body of a successful placement: the message and the order projection. -/
  | placed (message : String) (orderNumber : String) (total : ℚ) (status : String)
      (estimatedDelivery : Option Date)
  /-- The body of a successful status update: the message and the whole order. -/
  | updated (message : String) (order : Order)
  /-- The body of the public tracking response. -/
  | tracking (orderNumber : String) (status : String) (statusHistory : List StatusEntry)
      (trackingNumber : Option String) (carrier : Option String)
      (estimatedDelivery : Option Date) (city : String) (state : String)
deriving DecidableEq

/-- HTTP response: status code and JSON body. -/
structure Response where
  status : Nat
  body : Body
deriving DecidableEq

/-- The JavaScript expression `a || b` on an optional string: `b` when `a` is absent or empty. -/
def orDefault (a : Option String) (b : String) : String :=
  match a with
  | some s => if s = "" then b else s
  | none => b

/-! ## Product model (`backend/models/Product.js`) -/

/-- Pre-save hook of the product schema, for a document whose `name` is not modified: the slug
is left alone and `inStock` is recomputed from `stock`. -/
def Product.preSave (this : Product) : Product :=
  { this with inStock := decide (this.stock > 0) }

/-- The call `product.save()` on the document stored under `id`, after a write to `stock`: the
validator `min: 0` of `stock` is checked, the pre-save hook runs and the document is stored. -/
def Product.save (cat : Catalog) (id : ObjectId) (this : Product) :
    Except String Product × Catalog :=
  if this.stock < 0 then
    (.error "Product validation failed: stock", cat)
  else
    (.ok this.preSave, Function.update cat id (some this.preSave))

/-- The method `reduceStock(quantity)` of the product stored under `id`. -/
def Product.reduceStock (cat : Catalog) (id : ObjectId) (this : Product) (quantity : Int) :
    Except String Product × Catalog :=
  if this.stock < quantity then
    (.error "Insufficient stock", cat)
  else
    let this1 : Product := { this with stock := this.stock - quantity }
    let this2 : Product := { this1 with inStock := decide (this1.stock > 0) }
    Product.save cat id this2

/-- The call `Product.findById(id)` on a string of the request: the string is cast to an
identifier, which throws when the string is not well-formed, and the document stored under the
identifier is returned together with its `_id`, or nothing. -/
def Product.findById (cat : Catalog) (id : String) :
    Except String (Option (ObjectId × Product)) :=
  match castObjectId id with
  | none => .error castErrorMessage
  | some oid => .ok ((cat oid).map fun p => (oid, p))

/-- The call `Product.findByIdAndUpdate(id, $inc: stock: n)`: a direct update of the stored
document, without hooks and without validators; nothing happens when no document matches. -/
def Product.findByIdAndUpdateIncStock (cat : Catalog) (id : ObjectId) (n : Int) : Catalog :=
  match cat id with
  | none => cat
  | some p => Function.update cat id (some { p with stock := p.stock + n })

/-! ## Order model (`backend/models/Order.js`) -/

/-- Values allowed for `status`. -/
def statusEnum : List String :=
  ["pending", "confirmed", "processing", "shipped", "delivered", "cancelled", "returned"]

/-- Values allowed for `paymentMethod`. -/
def paymentMethodEnum : List String :=
  ["credit_card", "debit_card", "paypal", "cod", "bank_transfer"]

/-- Values allowed for `paymentStatus`. -/
def paymentStatusEnum : List String :=
  ["pending", "processing", "completed", "failed", "refunded"]

/-- Values allowed for `shippingMethod`. -/
def shippingMethodEnum : List String :=
  ["standard", "express", "overnight", "pickup"]

/-- The JavaScript call `s.padStart(targetLength, c)`. -/
def padStart (s : String) (targetLength : Nat) (c : Char) : String :=
  String.mk (List.replicate (targetLength - s.length) c) ++ s

/-- The first characters of `date.toISOString()`, up to the day: four digits of year (six and
a sign beyond 9999), month and day, separated by dashes. -/
def Date.isoDatePart (d : Date) : String :=
  (if d.year ≤ 9999 then padStart (toString d.year) 4 '0'
    else "+" ++ padStart (toString d.year) 6 '0')
    ++ "-" ++ padStart (toString d.month) 2 '0' ++ "-" ++ padStart (toString d.day) 2 '0'

/-- The date string of the hook: the first ten characters of `date.toISOString()` with every
dash removed. -/
def Date.dateStr (d : Date) : String :=
  String.mk ((d.isoDatePart.take 10).data.filter (fun c => c ≠ '-'))

/-- The expression `Math.floor(Math.random() * 10000).toString().padStart(4, '0')`: the floor
is taken of the double product. -/
def randomSuffix (random : ℚ) : String :=
  padStart (toString (⌊jsMul random 10000⌋).toNat) 4 '0'

/-- The order number the pre-save hook builds: `ORD-`, the date, a dash and the suffix. -/
def generateOrderNumber (env : Env) : String :=
  "ORD-" ++ env.now.dateStr ++ "-" ++ randomSuffix env.random

/-- An order document in memory: its `_id`, its paths, and the change tracking the hooks
consult (`isNew` and `isModified('status')`). -/
structure OrderDoc where
  id : Nat
  fields : Order
  isNew : Bool
  statusModified : Bool

/-- The lookup of `Order.findById` for an identifier the cast has accepted, given as the
position it denotes: the stored document, with nothing marked as modified. The cast of the
route parameter, and the exception of a failed cast, are in `putCancelRoute` and
`putStatusRoute`. -/
def Order.findById (orders : List Order) (id : Nat) : Option OrderDoc :=
  (orders[id]?).map fun o => { id := id, fields := o, isNew := false, statusModified := false }

/-- The assignment `this.status = s`: the path is marked modified when the document is new, when
it was already marked, or when the value differs from the current one. -/
def OrderDoc.setStatus (d : OrderDoc) (s : String) : OrderDoc :=
  { d with
    fields := { d.fields with status := s }
    statusModified := d.statusModified || d.isNew || decide (s ≠ d.fields.status) }

/-- Pre-save hook of the order schema: a new document without an order number receives one, and
a status change on a stored document appends an entry `status, timestamp` to the history. -/
def Order.preSave (d : OrderDoc) (env : Env) : OrderDoc :=
  let d1 : OrderDoc :=
    if d.isNew && d.fields.orderNumber = "" then
      { d with fields := { d.fields with orderNumber := generateOrderNumber env } }
    else d
  if d1.statusModified && !d1.isNew then
    { d1 with
      fields := { d1.fields with
        statusHistory := d1.fields.statusHistory ++
          [{ status := d1.fields.status, timestamp := env.now, note := none,
             updatedBy := none }] } }
  else d1

/-- Required fields of `addressSchema`. -/
def Address.valid (a : Address) : Bool :=
  a.fullName ≠ "" && a.phone ≠ "" && a.street ≠ "" && a.city ≠ "" && a.state ≠ "" &&
    a.zipCode ≠ ""

/-- Validators of `orderItemSchema`: `name` required, `quantity` at least 1. -/
def OrderItem.valid (i : OrderItem) : Bool :=
  i.name ≠ "" && decide (1 ≤ i.quantity)

/-- Validators of `orderSchema` on a whole document. -/
def Order.valid (o : Order) : Bool :=
  o.orderNumber ≠ "" && o.customerEmail ≠ "" && o.items.all OrderItem.valid &&
    (o.shippingAddress.all Address.valid) && (o.billingAddress.all Address.valid) &&
    paymentMethodEnum.contains o.paymentMethod && paymentStatusEnum.contains o.paymentStatus &&
    statusEnum.contains o.status && shippingMethodEnum.contains o.shippingMethod

/-- The call `doc.save()` on an order. The schema is checked first (the whole document when it
is new, the written path `status` otherwise), on the document as it is before any hook has run;
then the pre-save hook runs and the document is stored: a new one is appended, provided its
order number is not taken (unique index), a stored one is replaced. -/
def OrderDoc.save (orders : List Order) (d : OrderDoc) (env : Env) :
    Except String OrderDoc × List Order :=
  if d.isNew then
    if !d.fields.valid then
      (.error "Order validation failed", orders)
    else
      let d1 := Order.preSave d env
      if orders.any (fun o => o.orderNumber = d1.fields.orderNumber) then
        (.error "E11000 duplicate key error", orders)
      else
        (.ok { d1 with id := orders.length, isNew := false, statusModified := false },
          orders ++ [d1.fields])
  else if !statusEnum.contains d.fields.status then
    (.error "Order validation failed", orders)
  else
    let d1 := Order.preSave d env
    (.ok { d1 with statusModified := false }, orders.set d.id d1.fields)

/-- The method `updateStatus(newStatus, note, updatedBy)`. -/
def Order.updateStatus (orders : List Order) (this : OrderDoc) (newStatus : String)
    (note : String) (updatedBy : Option ObjectId) (env : Env) :
    Except String OrderDoc × List Order :=
  let this1 := this.setStatus newStatus
  let this2 : OrderDoc :=
    { this1 with
      fields := { this1.fields with
        statusHistory := this1.fields.statusHistory ++
          [{ status := newStatus, timestamp := env.now, note := some note,
             updatedBy := updatedBy }] } }
  let this3 : OrderDoc :=
    if newStatus = "delivered" then
      { this2 with fields := { this2.fields with deliveredAt := some env.now } }
    else this2
  OrderDoc.save orders this3 env

/-- The method `calculateTotals()`, in the arithmetic of doubles. -/
def Order.calculateTotals (this : Order) : Order :=
  let subtotal :=
    this.items.foldl (fun (sum : ℚ) item => jsAdd sum (jsMul item.price (item.quantity : ℚ))) 0
  { this with
    subtotal := subtotal
    total := jsSub (jsAdd (jsAdd subtotal this.tax) this.shippingCost) this.discount.amount }

/-- The method `canBeCancelled()`. -/
def Order.canBeCancelled (this : Order) : Bool :=
  let cancelableStatuses := ["pending", "confirmed", "processing"]
  cancelableStatuses.contains this.status

/-- The object the placement handler passes to `Order.create`. -/
structure OrderFields where
  user : Option ObjectId
  customerEmail : Option String
  items : List OrderItem
  subtotal : ℚ
  tax : ℚ
  shippingCost : ℚ
  total : ℚ
  shippingAddress : Option Address
  billingAddress : Option Address
  paymentMethod : Option String
  shippingMethod : String
  customerNote : Option String
  isGift : Option Bool
  giftMessage : Option String
  statusHistory : List StatusEntry

/-- The call `Order.create(fields)`: the document is built with the schema defaults (`status`
and `paymentStatus` pending, no discount, `country` USA) and saved as a new document. The
required paths `user`, `customerEmail` and `paymentMethod` must be present. The object of the
placement handler has no `orderNumber`, so the document is built without one. -/
def Order.create (orders : List Order) (f : OrderFields) (env : Env) :
    Except String OrderDoc × List Order :=
  match f.user, f.customerEmail, f.paymentMethod with
  | some user, some customerEmail, some paymentMethod =>
    let withCountry (a : Address) : Address := { a with country := some (a.country.getD "USA") }
    OrderDoc.save orders
      { id := orders.length
        isNew := true
        statusModified := false
        fields :=
          { orderNumber := ""
            user := user
            customerEmail := customerEmail
            items := f.items
            subtotal := f.subtotal
            tax := f.tax
            shippingCost := f.shippingCost
            discount := { code := none, amount := 0 }
            total := f.total
            shippingAddress := f.shippingAddress.map withCountry
            billingAddress := f.billingAddress.map withCountry
            paymentMethod := paymentMethod
            paymentStatus := "pending"
            paymentDetails := { transactionId := none, paidAt := none, method := none }
            status := "pending"
            statusHistory := f.statusHistory
            shippingMethod := f.shippingMethod
            trackingNumber := none
            carrier := none
            estimatedDelivery := none
            deliveredAt := none
            customerNote := f.customerNote
            adminNote := none
            isGift := f.isGift.getD false
            giftMessage := f.giftMessage } }
      env
  | _, _, _ => (.error "Order validation failed", orders)

/-! ## Order routes (`backend/routes/orders.js`) -/

/-- One element of `items` in the body of a placement request. The handler reads `productId`,
a string, and `quantity`; `extra` holds whatever other properties the client sent with the
line. -/
structure CartLine where
  productId : String
  quantity : Int
  extra : List (String × String)
deriving DecidableEq

/-- Body of a placement request. The handler reads the ten named properties; `extra` holds
whatever other properties the client sent. -/
structure OrderRequest where
  items : Option (List CartLine)
  shippingAddress : Option Address
  billingAddress : Option Address
  paymentMethod : Option String
  shippingMethod : Option String
  customerNote : Option String
  isGift : Option Bool
  giftMessage : Option String
  userId : Option ObjectId
  customerEmail : Option String
  extra : List (String × String)

/-- How the loop over the cart lines ends: with a response sent from inside the loop, with an
exception on its way to the `catch` block, or by running through every line. -/
inductive LoopOutcome where
  | responded (response : Response)
  | thrown (message : String)
  | completed (subtotal : ℚ) (orderItems : List OrderItem)

/-- The loop `for (const item of items)` of the placement handler, from the catalog, the running
subtotal and the items collected so far. -/
def placeLoop : List CartLine → Catalog → ℚ → List OrderItem → LoopOutcome × Catalog
  | [], cat, subtotal, orderItems => (.completed subtotal orderItems, cat)
  | item :: rest, cat, subtotal, orderItems =>
    match Product.findById cat item.productId with
    | .error e => (.thrown e, cat)
    | .ok none =>
      (.responded ⟨400, .error ("Product not found: " ++ item.productId)⟩, cat)
    | .ok (some (id, product)) =>
      if product.stock < item.quantity then
        (.responded ⟨400, .error ("Insufficient stock for: " ++ product.name)⟩, cat)
      else
        let orderItems1 := orderItems ++
          [{ product := id
             name := product.name
             price := product.price
             quantity := item.quantity
             image := orDefault product.images.head? ""
             icon := product.icon }]
        let subtotal1 := jsAdd subtotal (jsMul product.price (item.quantity : ℚ))
        match Product.reduceStock cat id product item.quantity with
        | (.error e, cat1) => (.thrown e, cat1)
        | (.ok _, cat1) => placeLoop rest cat1 subtotal1 orderItems1

/-- The shipping cost the placement handler computes (its `switch` on `shippingMethod`); the
fees are the doubles the literals `9.99`, `19.99` and `5.99` denote. -/
def shippingCostFor (shippingMethod : Option String) (subtotal : ℚ) : ℚ :=
  if shippingMethod = some "express" then roundDouble 9.99
  else if shippingMethod = some "overnight" then roundDouble 19.99
  else if subtotal ≥ 50 then 0 else roundDouble 5.99

/-- The object the placement handler passes to `Order.create` once the loop has run through
every line with the subtotal and the items given: the shipping cost, the tax
`subtotal * 0.08` and the total `subtotal + tax + shippingCost` are computed in the arithmetic
of doubles. -/
def placementFields (req : OrderRequest) (env : Env) (subtotal : ℚ)
    (orderItems : List OrderItem) : OrderFields :=
  let shippingCost := shippingCostFor req.shippingMethod subtotal
  let tax := jsMul subtotal (roundDouble 0.08)
  let total := jsAdd (jsAdd subtotal tax) shippingCost
  { user := req.userId
    customerEmail := req.customerEmail
    items := orderItems
    subtotal := subtotal
    tax := tax
    shippingCost := shippingCost
    total := total
    shippingAddress := req.shippingAddress
    billingAddress := req.billingAddress <|> req.shippingAddress
    paymentMethod := req.paymentMethod
    shippingMethod := orDefault req.shippingMethod "standard"
    customerNote := req.customerNote
    isGift := req.isGift
    giftMessage := req.giftMessage
    statusHistory :=
      [{ status := "pending", timestamp := env.now, note := some "Order placed",
         updatedBy := none }] }

/-- Handler of `POST /api/orders`. An exception, of the loop or of `Order.create`, is answered
by the `catch` block with status 500 and the message of the exception. -/
def postOrder (st : State) (req : OrderRequest) (env : Env) : Response × State :=
  match req.items with
  | none => (⟨400, .error "No items in order"⟩, st)
  | some [] => (⟨400, .error "No items in order"⟩, st)
  | some (item :: rest) =>
    match placeLoop (item :: rest) st.products 0 [] with
    | (.responded response, products) => (response, { st with products := products })
    | (.thrown e, products) =>
      (⟨500, .error (orDefault (some e) "Failed to create order")⟩,
        { st with products := products })
    | (.completed subtotal orderItems, products) =>
      match Order.create st.orders (placementFields req env subtotal orderItems) env with
      | (.error e, orders) =>
        (⟨500, .error (orDefault (some e) "Failed to create order")⟩,
          { products := products, orders := orders })
      | (.ok order, orders) =>
        (⟨201, .placed "Order placed successfully" order.fields.orderNumber order.fields.total
            order.fields.status order.fields.estimatedDelivery⟩,
          { products := products, orders := orders })

/-- The loop of the cancellation handler: one `$inc` of `stock` per item of the order. -/
def restoreStock (items : List OrderItem) (cat : Catalog) : Catalog :=
  items.foldl (fun c item => Product.findByIdAndUpdateIncStock c item.product item.quantity) cat

/-- Handler of `PUT /api/orders/:id/cancel` for a route parameter that is a well-formed
identifier, given as the position `id` it denotes; `reason` is `req.body.reason`. -/
def putCancel (st : State) (id : Nat) (reason : Option String) (env : Env) : Response × State :=
  match Order.findById st.orders id with
  | none => (⟨404, .error "Order not found"⟩, st)
  | some order =>
    if !order.fields.canBeCancelled then
      (⟨400, .error "Order cannot be cancelled at this stage"⟩, st)
    else
      let products := restoreStock order.fields.items st.products
      match Order.updateStatus st.orders order "cancelled"
          (orDefault reason "Cancelled by customer") none env with
      | (.error _, orders) =>
        (⟨500, .error "Failed to cancel order"⟩, { products := products, orders := orders })
      | (.ok _, orders) =>
        (⟨200, .message "Order cancelled successfully"⟩,
          { products := products, orders := orders })

/-- Body of a status update request. -/
structure StatusRequest where
  status : String
  note : Option String
  trackingNumber : Option String
  carrier : Option String

/-- Handler of `PUT /api/orders/:id/status` for a route parameter that is a well-formed
identifier, given as the position `id` it denotes. -/
def putStatus (st : State) (id : Nat) (req : StatusRequest) (env : Env) : Response × State :=
  match Order.findById st.orders id with
  | none => (⟨404, .error "Order not found"⟩, st)
  | some order =>
    let order1 : OrderDoc :=
      if orDefault req.trackingNumber "" ≠ "" then
        { order with fields := { order.fields with trackingNumber := req.trackingNumber } }
      else order
    let order2 : OrderDoc :=
      if orDefault req.carrier "" ≠ "" then
        { order1 with fields := { order1.fields with carrier := req.carrier } }
      else order1
    match Order.updateStatus st.orders order2 req.status (req.note.getD "") none env with
    | (.error _, orders) =>
      (⟨500, .error "Failed to update order status"⟩, { st with orders := orders })
    | (.ok order3, orders) =>
      (⟨200, .updated "Order status updated" order3.fields⟩, { st with orders := orders })

/-- The position in the order collection that an identifier denotes: the number its
hexadecimal digits write. -/
def orderPosition (id : ObjectId) : Nat :=
  id.data.foldl
    (fun n c =>
      16 * n + (if c.isDigit then c.toNat - '0'.toNat else c.toLower.toNat - 'a'.toNat + 10))
    0

/-- Handler of `PUT /api/orders/:id/cancel` on the route parameter as sent. `Order.findById`
casts the parameter; when the cast fails it throws and the `catch` block answers with status
500. -/
def putCancelRoute (st : State) (id : String) (reason : Option String) (env : Env) :
    Response × State :=
  match castObjectId id with
  | none => (⟨500, .error "Failed to cancel order"⟩, st)
  | some oid => putCancel st (orderPosition oid) reason env

/-- Handler of `PUT /api/orders/:id/status` on the route parameter as sent. `Order.findById`
casts the parameter; when the cast fails it throws and the `catch` block answers with status
500. -/
def putStatusRoute (st : State) (id : String) (req : StatusRequest) (env : Env) :
    Response × State :=
  match castObjectId id with
  | none => (⟨500, .error "Failed to update order status"⟩, st)
  | some oid => putStatus st (orderPosition oid) req env

/-- Handler of `GET /api/orders/track/:orderNumber`. Reading `city` of an absent shipping
address throws, which the handler answers with status 500. -/
def getTrack (st : State) (orderNumber : String) : Response :=
  match st.orders.find? (fun o => o.orderNumber = orderNumber) with
  | none => ⟨404, .error "Order not found"⟩
  | some order =>
    match order.shippingAddress with
    | none => ⟨500, .error "Failed to track order"⟩
    | some address =>
      ⟨200, .tracking order.orderNumber order.status order.statusHistory order.trackingNumber
        order.carrier order.estimatedDelivery address.city address.state⟩

/-! ## Quantities used to state the properties -/

/-- Sum of the quantities of the cart lines that reference the product `pid`, that is, whose
`productId` is cast to `pid`. -/
def linesQty (lines : List CartLine) (pid : ObjectId) : Int :=
  ((lines.filter (fun l => castObjectId l.productId = some pid)).map (fun l => l.quantity)).sum

/-- Sum of the quantities of the order items that reference the product `pid`. -/
def itemsQty (items : List OrderItem) (pid : ObjectId) : Int :=
  ((items.filter (fun i => i.product = pid)).map (fun i => i.quantity)).sum

/-- Sum over the items of price times quantity, in exact arithmetic. -/
def itemsTotal (items : List OrderItem) : ℚ :=
  (items.map (fun i => i.price * (i.quantity : ℚ))).sum

/-- Sum over the items of price times quantity in the arithmetic of doubles: each product is
rounded and added, in the order of the list, to the sum `init` so far, which is rounded. -/
def itemsTotalDouble (init : ℚ) (items : List OrderItem) : ℚ :=
  items.foldl (fun (sum : ℚ) i => jsAdd sum (jsMul i.price (i.quantity : ℚ))) init

/-- The document `reduceStock` stores when the stock suffices. -/
def Product.reduced (p : Product) (q : Int) : Product :=
  { p with stock := p.stock - q, inStock := decide (p.stock - q > 0) }

/-- The snapshot the placement loop takes of the product `p`, stored under `id`, for the cart
line `l`. -/
def snapshotOf (id : ObjectId) (l : CartLine) (p : Product) : OrderItem :=
  { product := id
    name := p.name
    price := p.price
    quantity := l.quantity
    image := orDefault p.images.head? ""
    icon := p.icon }

/-- The entry `updateStatus` pushes onto the history. -/
def updateEntry (newStatus note : String) (updatedBy : Option ObjectId) (env : Env) :
    StatusEntry :=
  { status := newStatus, timestamp := env.now, note := some note, updatedBy := updatedBy }

/-- The entry the pre-save hook pushes onto the history. -/
def hookEntry (status : String) (env : Env) : StatusEntry :=
  { status := status, timestamp := env.now, note := none, updatedBy := none }

/-- The stored order after a successful `updateStatus` on the stored order `o`. -/
def Order.afterUpdate (o : Order) (newStatus note : String) (updatedBy : Option ObjectId)
    (env : Env) : Order :=
  { o with
    status := newStatus
    statusHistory := o.statusHistory ++ [updateEntry newStatus note updatedBy env] ++
      (if newStatus = o.status then [] else [hookEntry newStatus env])
    deliveredAt := if newStatus = "delivered" then some env.now else o.deliveredAt }

/-- The stored order `o` with the tracking number and the carrier of a status request written
over its own, each only when the request carries a non-empty one. -/
def Order.withTracking (o : Order) (req : StatusRequest) : Order :=
  let o1 : Order :=
    if orDefault req.trackingNumber "" ≠ "" then { o with trackingNumber := req.trackingNumber }
    else o
  if orDefault req.carrier "" ≠ "" then { o1 with carrier := req.carrier } else o1

/-! ## Sample data -/

/-- The identifier of the product the text below calls P1. -/
def P1 : ObjectId := "64b7f3a2c9e1d4f5a6b7c801"

/-- An identifier under which the sample catalog holds nothing, called P9 below. -/
def P9 : ObjectId := "64b7f3a2c9e1d4f5a6b7c809"

/-- The identifier of a second product. -/
def P2 : ObjectId := "64b7f3a2c9e1d4f5a6b7c802"

/-- The identifier of a third product. -/
def P3 : ObjectId := "64b7f3a2c9e1d4f5a6b7c803"

/-- The identifier of a customer. -/
def U1 : ObjectId := "64b7f3a2c9e1d4f5a6b7c8a1"

/-- The identifier of another customer. -/
def U2 : ObjectId := "64b7f3a2c9e1d4f5a6b7c8a2"

/-- A product priced 10.00 with five pieces in stock. -/
def sampleProduct : Product :=
  { name := "Mug", price := 10, stock := 5, inStock := true, isActive := true,
    images := [], icon := "fas fa-box" }

/-- A catalog holding `sampleProduct` under the identifier P1 and nothing else. -/
def sampleCatalog : Catalog := fun id => if id = P1 then some sampleProduct else none

/-- A complete shipping address. -/
def sampleAddress : Address :=
  { fullName := "Ada Park", phone := "555-0100", street := "1 Main St", city := "Springfield",
    state := "IL", zipCode := "62701", country := none }

/-- A placement request with the given cart lines, every other property valid, standard
shipping. -/
def sampleRequestFor (lines : List CartLine) : OrderRequest :=
  { items := some lines
    shippingAddress := some sampleAddress
    billingAddress := none
    paymentMethod := some "cod"
    shippingMethod := some "standard"
    customerNote := none
    isGift := none
    giftMessage := none
    userId := some U1
    customerEmail := some "ada@example.com"
    extra := [] }

/-- The cart of the scenario: two pieces of P1. -/
def sampleRequest : OrderRequest :=
  sampleRequestFor [{ productId := P1, quantity := 2, extra := [] }]

/-- A clock reading and a random draw, the double `0.0421`. -/
def sampleEnv : Env := { now := ⟨2024, 3, 7, 0⟩, random := roundDouble 0.0421 }

/-- The database before the scenario: the sample catalog and no order. -/
def sampleState : State := { products := sampleCatalog, orders := [] }

/-- A stored pending order for two pieces of P1, with the amounts of the scenario: subtotal
20.00 and the doubles 1.6, 5.99 and 27.59. -/
def sampleOrder : Order :=
  { orderNumber := "ORD-20240307-0421"
    user := U1
    customerEmail := "ada@example.com"
    items := [{ product := P1, name := "Mug", price := 10, quantity := 2, image := "",
                icon := "fas fa-box" }]
    subtotal := 20
    tax := roundDouble 1.6
    shippingCost := roundDouble 5.99
    discount := { code := none, amount := 0 }
    total := roundDouble 27.59
    shippingAddress := some { sampleAddress with country := some "USA" }
    billingAddress := some { sampleAddress with country := some "USA" }
    paymentMethod := "cod"
    paymentStatus := "pending"
    paymentDetails := { transactionId := none, paidAt := none, method := none }
    status := "pending"
    statusHistory :=
      [{ status := "pending", timestamp := sampleEnv.now, note := some "Order placed",
         updatedBy := none }]
    shippingMethod := "standard"
    trackingNumber := none
    carrier := none
    estimatedDelivery := none
    deliveredAt := none
    customerNote := none
    adminNote := none
    isGift := false
    giftMessage := none }

/-- A database with three pieces of P1 left and the sample order stored. -/
def placedState : State :=
  { products := Function.update sampleCatalog P1 (some (sampleProduct.reduced 2))
    orders := [sampleOrder] }

/-- The sample catalog after the soft delete of P1: the same product with `isActive` false. -/
def inactiveCatalog : Catalog :=
  fun id => if id = P1 then some { sampleProduct with isActive := false } else none

/-- The sample order once it has shipped. -/
def shippedOrder : Order := { sampleOrder with status := "shipped" }

/-- A database whose only order has shipped. -/
def shippedState : State :=
  { products := Function.update sampleCatalog P1 (some (sampleProduct.reduced 2))
    orders := [shippedOrder] }

/-- A cart whose first line asks for more than the stock of P1 and whose second line references
a product the catalog does not hold. -/
def shortThenMissingRequest : OrderRequest :=
  sampleRequestFor
    [{ productId := P1, quantity := 9, extra := [] },
     { productId := P9, quantity := 1, extra := [] }]

/-- A cart whose first line can be served and whose second line references a product the
catalog does not hold. -/
def servedThenMissingRequest : OrderRequest :=
  sampleRequestFor
    [{ productId := P1, quantity := 2, extra := [] },
     { productId := P9, quantity := 1, extra := [] }]

/-- The sample catalog with a single piece of P1 in stock. -/
def lowStockCatalog : Catalog :=
  fun id => if id = P1 then some { sampleProduct with stock := 1 } else none

/-- A database with a single piece of P1 in stock and no order. -/
def lowStockState : State := { products := lowStockCatalog, orders := [] }

/-- The snapshot of an order: its items, subtotal, tax, shipping cost and total. -/
def Order.snapshot (o : Order) : List OrderItem × ℚ × ℚ × ℚ × ℚ :=
  (o.items, o.subtotal, o.tax, o.shippingCost, o.total)

/-- The sample order with a second item, one piece of a product P9. -/
def orphanOrder : Order :=
  { sampleOrder with
    items := sampleOrder.items ++
      [{ product := P9, name := "Lamp", price := 30, quantity := 1, image := "",
         icon := "fas fa-box" }] }

/-- A database that stores `orphanOrder` while its catalog holds P1 only: the product P9 of the
second item no longer exists. -/
def orphanState : State :=
  { products := Function.update sampleCatalog P1 (some (sampleProduct.reduced 2))
    orders := [orphanOrder] }

/-- The sample order once it has been cancelled. -/
def cancelledOrder : Order := { sampleOrder with status := "cancelled" }

/-- A database whose only order has been cancelled. -/
def cancelledState : State := { products := sampleCatalog, orders := [cancelledOrder] }

/-- An order that agrees with the sample order on what the tracking answer shows and differs
from it in the name, phone, street and zip code of the shipping address, the customer email,
the items and the amounts. -/
def otherCustomerOrder : Order :=
  { sampleOrder with
    customerEmail := "bob@example.com"
    items := []
    subtotal := 500
    tax := 40
    shippingCost := 0
    total := 540
    shippingAddress := some
      { fullName := "Bob Stone", phone := "555-0199", street := "9 Oak Ave",
        city := "Springfield", state := "IL", zipCode := "62799", country := some "USA" } }

/-- The cart of the scenario sent by another client: the same line and shipping method, with a
price on the line, a subtotal and a total in the body, and every other property different. -/
def tamperedRequest : OrderRequest :=
  { items := some [{ productId := P1, quantity := 2, extra := [("price", "0.01")] }]
    shippingAddress := some { sampleAddress with fullName := "Bob Stone" }
    billingAddress := some sampleAddress
    paymentMethod := some "paypal"
    shippingMethod := some "standard"
    customerNote := some "leave at the door"
    isGift := some true
    giftMessage := some "enjoy"
    userId := some U2
    customerEmail := some "bob@example.com"
    extra := [("subtotal", "0"), ("total", "0.01"), ("tax", "0")] }

/-- A database in which P1 is sold out, with the flag `inStock` false, and the sample order for
two pieces of P1 is stored and pending. -/
def soldOutState : State :=
  { products := fun id =>
      if id = P1 then some { sampleProduct with stock := 0, inStock := false } else none
    orders := [sampleOrder] }

/-- A cart whose first line can be served and whose second line carries a `productId` that is
not a well-formed identifier. -/
def servedThenMalformedRequest : OrderRequest :=
  sampleRequestFor
    [{ productId := P1, quantity := 2, extra := [] },
     { productId := "not-an-id", quantity := 1, extra := [] }]

/-- A catalog of three products priced 12.11, 19.99 and 17.9, ten pieces of each in stock. -/
def threePriceCatalog : Catalog := fun id =>
  if id = P1 then some { sampleProduct with price := roundDouble 12.11, stock := 10 }
  else if id = P2 then some { sampleProduct with price := roundDouble 19.99, stock := 10 }
  else if id = P3 then some { sampleProduct with price := roundDouble 17.9, stock := 10 }
  else none

/-- A cart with one piece of each product of `threePriceCatalog`. -/
def threePriceLines : List CartLine :=
  [{ productId := P1, quantity := 1, extra := [] },
   { productId := P2, quantity := 1, extra := [] },
   { productId := P3, quantity := 1, extra := [] }]

/-- The sample order with a single item instead: three pieces priced 0.1. -/
def dimeOrder : Order :=
  { sampleOrder with
    items := [{ product := P1, name := "Sticker", price := roundDouble 0.1, quantity := 3,
                image := "", icon := "fas fa-box" }] }

/-- The flag `inStock` of every stored product says whether its stock is positive. -/
def inStockConsistent (cat : Catalog) : Prop :=
  ∀ pid p, cat pid = some p → p.inStock = decide (p.stock > 0)

/-! ## Supporting lemmas -/

/-- The nearest integer of a number closer to `n` than one half. -/
theorem roundHalfEven_eq (x : ℚ) (n : Int) (h1 : (n : ℚ) - 1 / 2 < x) (h2 : x < n + 1 / 2) :
    roundHalfEven x = n := by
  unfold roundHalfEven
  by_cases hx : (n : ℚ) ≤ x
  · have hf : ⌊x⌋ = n := by
      rw [Int.floor_eq_iff]
      exact ⟨hx, by linarith⟩
    simp only [hf]
    rw [if_pos (by linarith)]
  · push_neg at hx
    have hf : ⌊x⌋ = n - 1 := by
      rw [Int.floor_eq_iff]
      constructor
      · push_cast; linarith
      · push_cast; linarith
    simp only [hf]
    rw [if_neg (by push_cast; linarith), if_pos (by push_cast; linarith)]
    ring

/-- The nearest integer of a number halfway between `f` and `f + 1`: the even one. -/
theorem roundHalfEven_tie (x : ℚ) (f : Int) (h : x = f + 1 / 2) :
    roundHalfEven x = if f % 2 = 0 then f else f + 1 := by
  unfold roundHalfEven
  have hf : ⌊x⌋ = f := by
    rw [Int.floor_eq_iff]
    constructor
    · rw [h]; linarith
    · rw [h]; linarith
  simp only [hf]
  rw [if_neg (by rw [h]; norm_num), if_neg (by rw [h]; norm_num)]

/-- The binary exponent of a number between two consecutive powers of two. -/
theorem log_two_eq (a : ℚ) (e : Int) (h1 : (2 : ℚ) ^ e ≤ a) (h2 : a < (2 : ℚ) ^ (e + 1)) :
    Int.log 2 a = e := by
  have hpos : (0 : ℚ) < a := lt_of_lt_of_le (by positivity) h1
  have a1 : e ≤ Int.log 2 a :=
    (Int.zpow_le_iff_le_log (by norm_num) hpos).mp (by exact_mod_cast h1)
  have a2 : Int.log 2 a < e + 1 :=
    (Int.lt_zpow_iff_log_lt (by norm_num) hpos).mp (by exact_mod_cast h2)
  omega

/-- The double nearest to `q`, from the binary exponent `e` of `q` and the multiple `n` of the
unit in the last place that lies closer to `q` than half a unit. -/
theorem roundDouble_eq (q : ℚ) (e n : Int) (he : -1022 ≤ e) (h1 : (2 : ℚ) ^ e ≤ |q|)
    (h2 : |q| < (2 : ℚ) ^ (e + 1)) (h3 : (n : ℚ) - 1 / 2 < q / (2 : ℚ) ^ (e - 52))
    (h4 : q / (2 : ℚ) ^ (e - 52) < n + 1 / 2) :
    roundDouble q = n * (2 : ℚ) ^ (e - 52) := by
  have hpos : (0 : ℚ) < |q| := lt_of_lt_of_le (by positivity) h1
  have hq : q ≠ 0 := abs_pos.mp hpos
  unfold roundDouble
  rw [if_neg hq]
  simp only [log_two_eq |q| e h1 h2, max_eq_left he]
  rw [roundHalfEven_eq _ n h3 h4]

/-- The double nearest to a number `q` that lies halfway between two neighbouring doubles: the
one whose multiple of the unit in the last place is even. -/
theorem roundDouble_tie (q : ℚ) (e f : Int) (he : -1022 ≤ e) (h1 : (2 : ℚ) ^ e ≤ |q|)
    (h2 : |q| < (2 : ℚ) ^ (e + 1)) (h3 : q / (2 : ℚ) ^ (e - 52) = f + 1 / 2) :
    roundDouble q = ((if f % 2 = 0 then f else f + 1 : Int) : ℚ) * (2 : ℚ) ^ (e - 52) := by
  have hpos : (0 : ℚ) < |q| := lt_of_lt_of_le (by positivity) h1
  have hq : q ≠ 0 := abs_pos.mp hpos
  unfold roundDouble
  rw [if_neg hq]
  simp only [log_two_eq |q| e h1 h2, max_eq_left he]
  rw [roundHalfEven_tie _ f h3]

/-- The double the literal `0.08` denotes. -/
theorem double_0_08 : roundDouble 0.08 = 5764607523034235 / 72057594037927936 := by
  rw [roundDouble_eq (0.08) (-4) 5764607523034235 (by norm_num) (by norm_num [abs_of_pos])
    (by norm_num [abs_of_pos]) (by norm_num) (by norm_num)]
  norm_num

/-- The double the literal `1.6` denotes. -/
theorem double_1_6 : roundDouble 1.6 = 3602879701896397 / 2251799813685248 := by
  rw [roundDouble_eq (1.6) (0) 7205759403792794 (by norm_num) (by norm_num [abs_of_pos])
    (by norm_num [abs_of_pos]) (by norm_num) (by norm_num)]
  norm_num

/-- The double the literal `5.99` denotes. -/
theorem double_5_99 : roundDouble 5.99 = 3372070220993659 / 562949953421312 := by
  rw [roundDouble_eq (5.99) (2) 6744140441987318 (by norm_num) (by norm_num [abs_of_pos])
    (by norm_num [abs_of_pos]) (by norm_num) (by norm_num)]
  norm_num

/-- The number 20 is a double. -/
theorem double_20 : roundDouble 20 = 20 := by
  rw [roundDouble_eq (20) (4) 5629499534213120 (by norm_num) (by norm_num [abs_of_pos])
    (by norm_num [abs_of_pos]) (by norm_num) (by norm_num)]
  norm_num

/-- The tax on a subtotal of 20.00: the double product of 20 and `0.08`, which is the double
`1.6`. -/
theorem double_tax : jsMul 20 (roundDouble 0.08) = 3602879701896397 / 2251799813685248 := by
  rw [jsMul, double_0_08]
  rw [roundDouble_eq (20 * (5764607523034235 / 72057594037927936)) (0) 7205759403792794
    (by norm_num) (by norm_num [abs_of_pos]) (by norm_num [abs_of_pos]) (by norm_num)
    (by norm_num)]
  norm_num

/-- The double sum of 20 and the double `1.6`, printed 21.6. -/
theorem double_20_plus_tax :
    jsAdd 20 (3602879701896397 / 2251799813685248) =
      3039929748475085 / 140737488355328 := by
  rw [jsAdd]
  rw [roundDouble_eq (20 + (3602879701896397 / 2251799813685248)) (4) 6079859496950170
    (by norm_num) (by norm_num [abs_of_pos]) (by norm_num [abs_of_pos]) (by norm_num)
    (by norm_num)]
  norm_num

/-- The double sum of the double 21.6 and the double `5.99`, printed 27.590000000000003. -/
theorem double_total :
    jsAdd (3039929748475085 / 140737488355328) (3372070220993659 / 562949953421312) =
      970736825930875 / 35184372088832 := by
  rw [jsAdd]
  rw [roundDouble_tie ((3039929748475085 / 140737488355328) + (3372070220993659 / 562949953421312))
    (4) 7765894607446999 (by norm_num) (by norm_num [abs_of_pos]) (by norm_num [abs_of_pos])
    (by norm_num)]
  norm_num

/-- The double printed 27.590000000000003 is a double. -/
theorem double_total_idem :
    roundDouble (970736825930875 / 35184372088832) =
      970736825930875 / 35184372088832 := by
  rw [roundDouble_eq ((970736825930875 / 35184372088832)) (4) 7765894607447000 (by norm_num)
    (by norm_num [abs_of_pos]) (by norm_num [abs_of_pos]) (by norm_num) (by norm_num)]
  norm_num

/-- The double the literal `0.0421` denotes. -/
theorem double_0_0421 : roundDouble 0.0421 = 1516812354498383 / 36028797018963968 := by
  rw [roundDouble_eq (0.0421) (-5) 6067249417993532 (by norm_num) (by norm_num [abs_of_pos])
    (by norm_num [abs_of_pos]) (by norm_num) (by norm_num)]
  norm_num

/-- The double product of the double `0.0421` and 10000 is 421, although the double lies below
0.0421. -/
theorem double_draw_times_10000 : jsMul (1516812354498383 / 36028797018963968) 10000 = 421 := by
  rw [jsMul]
  rw [roundDouble_eq ((1516812354498383 / 36028797018963968) * 10000) (8) 7406310324699136
    (by norm_num) (by norm_num [abs_of_pos]) (by norm_num [abs_of_pos]) (by norm_num)
    (by norm_num)]
  norm_num

/-- The double the literal `12.11` denotes. -/
theorem double_12_11 : roundDouble 12.11 = 852165491991511 / 70368744177664 := by
  rw [roundDouble_eq (12.11) (3) 6817323935932088 (by norm_num) (by norm_num [abs_of_pos])
    (by norm_num [abs_of_pos]) (by norm_num) (by norm_num)]
  norm_num

/-- The double the literal `19.99` denotes. -/
theorem double_19_99 : roundDouble 19.99 = 5626684784446013 / 281474976710656 := by
  rw [roundDouble_eq (19.99) (4) 5626684784446013 (by norm_num) (by norm_num [abs_of_pos])
    (by norm_num [abs_of_pos]) (by norm_num) (by norm_num)]
  norm_num

/-- The double the literal `17.9` denotes. -/
theorem double_17_9 : roundDouble 17.9 = 2519201041560371 / 140737488355328 := by
  rw [roundDouble_eq (17.9) (4) 5038402083120742 (by norm_num) (by norm_num [abs_of_pos])
    (by norm_num [abs_of_pos]) (by norm_num) (by norm_num)]
  norm_num

/-- The double `12.11` is a double. -/
theorem double_12_11_idem :
    roundDouble (852165491991511 / 70368744177664) =
      852165491991511 / 70368744177664 := by
  rw [roundDouble_eq ((852165491991511 / 70368744177664)) (3) 6817323935932088 (by norm_num)
    (by norm_num [abs_of_pos]) (by norm_num [abs_of_pos]) (by norm_num) (by norm_num)]
  norm_num

/-- The double `19.99` is a double. -/
theorem double_19_99_idem :
    roundDouble (5626684784446013 / 281474976710656) =
      5626684784446013 / 281474976710656 := by
  rw [roundDouble_eq ((5626684784446013 / 281474976710656)) (4) 5626684784446013 (by norm_num)
    (by norm_num [abs_of_pos]) (by norm_num [abs_of_pos]) (by norm_num) (by norm_num)]
  norm_num

/-- The double `17.9` is a double. -/
theorem double_17_9_idem :
    roundDouble (2519201041560371 / 140737488355328) =
      2519201041560371 / 140737488355328 := by
  rw [roundDouble_eq ((2519201041560371 / 140737488355328)) (4) 5038402083120742 (by norm_num)
    (by norm_num [abs_of_pos]) (by norm_num [abs_of_pos]) (by norm_num) (by norm_num)]
  norm_num

/-- The double sum of the doubles `12.11` and `19.99`, printed 32.099999999999994. -/
theorem double_two_prices :
    jsAdd (852165491991511 / 70368744177664) (5626684784446013 / 281474976710656) =
      1129418344051507 / 35184372088832 := by
  rw [jsAdd]
  rw [roundDouble_tie ((852165491991511 / 70368744177664) + (5626684784446013 / 281474976710656))
    (5) 4517673376206028 (by norm_num) (by norm_num [abs_of_pos]) (by norm_num [abs_of_pos])
    (by norm_num)]
  norm_num

/-- The double sum of that double and the double `17.9`, printed 49.99999999999999. -/
theorem double_three_prices :
    jsAdd (1129418344051507 / 35184372088832) (2519201041560371 / 140737488355328) =
      7036874417766399 / 140737488355328 := by
  rw [jsAdd]
  rw [roundDouble_eq ((1129418344051507 / 35184372088832) + (2519201041560371 / 140737488355328))
    (5) 7036874417766399 (by norm_num) (by norm_num [abs_of_pos]) (by norm_num [abs_of_pos])
    (by norm_num) (by norm_num)]
  norm_num

/-- The double the literal `0.1` denotes. -/
theorem double_0_1 : roundDouble 0.1 = 3602879701896397 / 36028797018963968 := by
  rw [roundDouble_eq (0.1) (-4) 7205759403792794 (by norm_num) (by norm_num [abs_of_pos])
    (by norm_num [abs_of_pos]) (by norm_num) (by norm_num)]
  norm_num

/-- The double product of the double `0.1` and 3, printed 0.30000000000000004. -/
theorem double_0_1_times_3 :
    jsMul (3602879701896397 / 36028797018963968) 3 =
      1351079888211149 / 4503599627370496 := by
  rw [jsMul]
  rw [roundDouble_tie ((3602879701896397 / 36028797018963968) * 3) (-2) 5404319552844595
    (by norm_num) (by norm_num [abs_of_pos]) (by norm_num [abs_of_pos]) (by norm_num)]
  norm_num

/-- The double printed 0.30000000000000004 is a double. -/
theorem double_0_3_idem :
    roundDouble (1351079888211149 / 4503599627370496) =
      1351079888211149 / 4503599627370496 := by
  rw [roundDouble_eq ((1351079888211149 / 4503599627370496)) (-2) 5404319552844596 (by norm_num)
    (by norm_num [abs_of_pos]) (by norm_num [abs_of_pos]) (by norm_num) (by norm_num)]
  norm_num

theorem Product.reduceStock_of_le (cat : Catalog) (id : ObjectId) (p : Product) (q : Int)
    (h : q ≤ p.stock) :
    Product.reduceStock cat id p q =
      (.ok (p.reduced q), Function.update cat id (some (p.reduced q))) := by
  have h1 : ¬ p.stock < q := not_lt.mpr h
  have h2 : ¬ p.stock - q < 0 := by omega
  simp [Product.reduceStock, Product.save, Product.preSave, Product.reduced, h1, h2]

theorem Product.reduceStock_of_lt (cat : Catalog) (id : ObjectId) (p : Product) (q : Int)
    (h : p.stock < q) :
    Product.reduceStock cat id p q = (.error "Insufficient stock", cat) := by
  simp [Product.reduceStock, h]

theorem linesQty_nil (pid : ObjectId) : linesQty [] pid = 0 := rfl

theorem linesQty_cons (l : CartLine) (rest : List CartLine) (pid : ObjectId) :
    linesQty (l :: rest) pid =
      (if castObjectId l.productId = some pid then l.quantity else 0) + linesQty rest pid := by
  unfold linesQty
  by_cases h : castObjectId l.productId = some pid <;> simp [List.filter_cons, h]

/-- One round of the placement loop on a line whose product is found with enough stock. -/
theorem placeLoop_cons_ok (l : CartLine) (rest : List CartLine) (cat : Catalog) (sub : ℚ)
    (items : List OrderItem) (id : ObjectId) (p : Product)
    (hid : castObjectId l.productId = some id) (hp : cat id = some p)
    (hq : l.quantity ≤ p.stock) :
    placeLoop (l :: rest) cat sub items =
      placeLoop rest (Function.update cat id (some (p.reduced l.quantity)))
        (jsAdd sub (jsMul p.price (l.quantity : ℚ))) (items ++ [snapshotOf id l p]) := by
  have h1 : ¬ p.stock < l.quantity := not_lt.mpr hq
  simp only [placeLoop, Product.findById, hid, hp, Option.map_some', h1, if_false,
    Product.reduceStock_of_le cat _ p _ hq, snapshotOf]

/-- One round of the placement loop on a line whose identifier matches no product. -/
theorem placeLoop_cons_missing (l : CartLine) (rest : List CartLine) (cat : Catalog) (sub : ℚ)
    (items : List OrderItem) (id : ObjectId) (hid : castObjectId l.productId = some id)
    (hp : cat id = none) :
    placeLoop (l :: rest) cat sub items =
      (.responded ⟨400, .error ("Product not found: " ++ l.productId)⟩, cat) := by
  simp only [placeLoop, Product.findById, hid, hp, Option.map_none']

/-- One round of the placement loop on a line that asks for more than the stock. -/
theorem placeLoop_cons_short (l : CartLine) (rest : List CartLine) (cat : Catalog) (sub : ℚ)
    (items : List OrderItem) (id : ObjectId) (p : Product)
    (hid : castObjectId l.productId = some id) (hp : cat id = some p)
    (hq : p.stock < l.quantity) :
    placeLoop (l :: rest) cat sub items =
      (.responded ⟨400, .error ("Insufficient stock for: " ++ p.name)⟩, cat) := by
  simp only [placeLoop, Product.findById, hid, hp, Option.map_some', hq, if_true]

/-- One round of the placement loop on a line whose `productId` is not a well-formed
identifier: `findById` throws. -/
theorem placeLoop_cons_malformed (l : CartLine) (rest : List CartLine) (cat : Catalog)
    (sub : ℚ) (items : List OrderItem) (hid : castObjectId l.productId = none) :
    placeLoop (l :: rest) cat sub items = (.thrown castErrorMessage, cat) := by
  simp only [placeLoop, Product.findById, hid]

theorem snapshotOf_reduced (id : ObjectId) (l : CartLine) (p : Product) (q : Int) :
    snapshotOf id l (p.reduced q) = snapshotOf id l p := rfl

/-- What a run of the placement loop through every line leaves behind: the stock of each
product has gone down by the quantities of the lines that reference it, products no line
references are untouched, and one snapshot per line has been collected, in cart order, its
price times quantity added to the subtotal in the arithmetic of doubles. -/
theorem placeLoop_completed (lines : List CartLine) :
    ∀ (cat : Catalog) (sub : ℚ) (items : List OrderItem) (sub1 : ℚ) (items1 : List OrderItem)
      (cat1 : Catalog),
      placeLoop lines cat sub items = (.completed sub1 items1, cat1) →
      (∀ pid, (cat1 pid).map (fun p => p.stock) =
        (cat pid).map (fun p => p.stock - linesQty lines pid)) ∧
      (∀ pid, (∀ l ∈ lines, castObjectId l.productId ≠ some pid) → cat1 pid = cat pid) ∧
      ∃ new : List OrderItem, items1 = items ++ new ∧ sub1 = itemsTotalDouble sub new ∧
        List.Forall₂
          (fun l i => ∃ id p, castObjectId l.productId = some id ∧ cat id = some p ∧
            i = snapshotOf id l p)
          lines new := by
  induction lines with
  | nil =>
    intro cat sub items sub1 items1 cat1 h
    simp only [placeLoop, Prod.mk.injEq, LoopOutcome.completed.injEq] at h
    obtain ⟨⟨rfl, rfl⟩, rfl⟩ := h
    refine ⟨fun pid => ?_, fun pid _ => rfl, [], by simp, rfl, List.Forall₂.nil⟩
    cases cat pid <;> simp [linesQty_nil]
  | cons l rest ih =>
    intro cat sub items sub1 items1 cat1 h
    cases hid : castObjectId l.productId with
    | none => rw [placeLoop_cons_malformed l rest cat sub items hid] at h; simp at h
    | some id =>
      cases hp : cat id with
      | none => rw [placeLoop_cons_missing l rest cat sub items id hid hp] at h; simp at h
      | some p =>
        by_cases hq : l.quantity ≤ p.stock
        · rw [placeLoop_cons_ok l rest cat sub items id p hid hp hq] at h
          obtain ⟨hstock, hframe, new, hitems, hsub, hall⟩ := ih _ _ _ _ _ _ h
          refine ⟨fun pid => ?_, fun pid hpid => ?_, snapshotOf id l p :: new, ?_, ?_, ?_⟩
          · rw [hstock pid, linesQty_cons, hid]
            by_cases e : pid = id
            · subst e
              rw [if_pos rfl]
              simp only [Function.update_same, hp, Option.map_some', Product.reduced]
              congr 1
              ring
            · have e1 : ¬ some id = some pid := fun h1 => e (Option.some.inj h1).symm
              rw [if_neg e1]
              simp only [Function.update_noteq e, zero_add]
          · rw [hframe pid (fun l1 h1 => hpid l1 (List.mem_cons_of_mem _ h1))]
            have e : pid ≠ id := fun e => hpid l (List.mem_cons_self _ _) (by rw [hid, e])
            exact Function.update_noteq e _ _
          · simp [hitems]
          · rw [hsub]
            rfl
          · refine List.Forall₂.cons ⟨id, p, hid, hp, rfl⟩ (hall.imp ?_)
            intro l1 i ⟨id1, p1, hid1, hp1, hi⟩
            by_cases e : id1 = id
            · subst e
              rw [Function.update_same] at hp1
              cases hp1
              exact ⟨id1, p, hid1, hp, by rw [hi, snapshotOf_reduced]⟩
            · rw [Function.update_noteq e] at hp1
              exact ⟨id1, p1, hid1, hp1, hi⟩
        · rw [placeLoop_cons_short l rest cat sub items id p hid hp (not_le.mp hq)] at h
          simp at h

/-- The schema rejects every document `Order.create` builds: the required `orderNumber` is
absent when the validators run, because only the pre-save hook, which runs after them, would
assign it. Nothing is stored. -/
theorem Order.create_rejects (orders : List Order) (f : OrderFields) (env : Env) :
    Order.create orders f env = (.error "Order validation failed", orders) := by
  unfold Order.create
  split
  · simp [OrderDoc.save, Order.valid]
  · rfl

/-- A response sent from inside the placement loop has status 400. -/
theorem placeLoop_responded_status (lines : List CartLine) :
    ∀ (cat : Catalog) (sub : ℚ) (items : List OrderItem) (r : Response) (cat1 : Catalog),
      placeLoop lines cat sub items = (.responded r, cat1) → r.status = 400 := by
  induction lines with
  | nil => intro cat sub items r cat1 h; simp [placeLoop] at h
  | cons l rest ih =>
    intro cat sub items r cat1 h
    cases hid : castObjectId l.productId with
    | none => rw [placeLoop_cons_malformed l rest cat sub items hid] at h; simp at h
    | some id =>
      cases hp : cat id with
      | none =>
        rw [placeLoop_cons_missing l rest cat sub items id hid hp] at h
        simp only [Prod.mk.injEq, LoopOutcome.responded.injEq] at h
        rw [← h.1]
      | some p =>
        by_cases hq : l.quantity ≤ p.stock
        · rw [placeLoop_cons_ok l rest cat sub items id p hid hp hq] at h
          exact ih _ _ _ _ _ h
        · rw [placeLoop_cons_short l rest cat sub items id p hid hp (not_le.mp hq)] at h
          simp only [Prod.mk.injEq, LoopOutcome.responded.injEq] at h
          rw [← h.1]

/-- The only exception of the placement loop is the failed cast of `findById`, on a line whose
`productId` is not a well-formed identifier: no call of `reduceStock` it makes throws. -/
theorem placeLoop_thrown (lines : List CartLine) :
    ∀ (cat : Catalog) (sub : ℚ) (items : List OrderItem) (e : String) (cat1 : Catalog),
      placeLoop lines cat sub items = (.thrown e, cat1) →
      e = castErrorMessage ∧ ∃ l ∈ lines, castObjectId l.productId = none := by
  induction lines with
  | nil => intro cat sub items e cat1 h; simp [placeLoop] at h
  | cons l rest ih =>
    intro cat sub items e cat1 h
    cases hid : castObjectId l.productId with
    | none =>
      rw [placeLoop_cons_malformed l rest cat sub items hid] at h
      simp only [Prod.mk.injEq, LoopOutcome.thrown.injEq] at h
      exact ⟨h.1.symm, l, List.mem_cons_self _ _, hid⟩
    | some id =>
      cases hp : cat id with
      | none => rw [placeLoop_cons_missing l rest cat sub items id hid hp] at h; simp at h
      | some p =>
        by_cases hq : l.quantity ≤ p.stock
        · rw [placeLoop_cons_ok l rest cat sub items id p hid hp hq] at h
          obtain ⟨he, l1, hl1, hc⟩ := ih _ _ _ _ _ h
          exact ⟨he, l1, List.mem_cons_of_mem _ hl1, hc⟩
        · rw [placeLoop_cons_short l rest cat sub items id p hid hp (not_le.mp hq)] at h
          simp at h

/-- The placement handler on a non-empty cart the loop runs through: `Order.create` rejects the
document, the handler answers with status 500, the catalog stays as the loop left it and no
order is stored. -/
theorem postOrder_of_completed (st : State) (req : OrderRequest) (env : Env)
    (lines : List CartLine) (hl : req.items = some lines) (hne : lines ≠ []) (sub : ℚ)
    (items : List OrderItem) (products : Catalog)
    (hloop : placeLoop lines st.products 0 [] = (.completed sub items, products)) :
    postOrder st req env =
      (⟨500, .error "Order validation failed"⟩,
        { products := products, orders := st.orders }) := by
  cases lines with
  | nil => exact absurd rfl hne
  | cons l rest =>
    simp only [postOrder, hl, hloop, Order.create_rejects]
    rfl

/-- The placement handler on a cart the loop answers from inside. -/
theorem postOrder_of_responded (st : State) (req : OrderRequest) (env : Env)
    (lines : List CartLine) (hl : req.items = some lines) (r : Response) (products : Catalog)
    (hloop : placeLoop lines st.products 0 [] = (.responded r, products)) :
    postOrder st req env = (r, { st with products := products }) := by
  cases lines with
  | nil => simp [placeLoop] at hloop
  | cons l rest => simp only [postOrder, hl, hloop]

/-- The placement handler on a cart on which the loop throws. -/
theorem postOrder_of_thrown (st : State) (req : OrderRequest) (env : Env)
    (lines : List CartLine) (hl : req.items = some lines) (e : String) (products : Catalog)
    (hloop : placeLoop lines st.products 0 [] = (.thrown e, products)) :
    postOrder st req env =
      (⟨500, .error castErrorMessage⟩, { st with products := products }) := by
  obtain ⟨he, _⟩ := placeLoop_thrown _ _ _ _ _ _ hloop
  subst he
  cases lines with
  | nil => simp [placeLoop] at hloop
  | cons l rest =>
    simp only [postOrder, hl, hloop]
    rfl

/-- No placement stores an order, and none is answered with status 201: whatever the request,
the order collection afterwards is the one before and the status is 400 or 500. -/
theorem postOrder_orders (st : State) (req : OrderRequest) (env : Env) :
    (postOrder st req env).2.orders = st.orders ∧
    ((postOrder st req env).1.status = 400 ∨ (postOrder st req env).1.status = 500) := by
  cases hl : req.items with
  | none => simp [postOrder, hl]
  | some lines =>
    by_cases hne : lines = []
    · subst hne; simp [postOrder, hl]
    · rcases hloop : placeLoop lines st.products 0 [] with ⟨out, products⟩
      cases out with
      | responded r =>
        rw [postOrder_of_responded st req env lines hl r products hloop]
        exact ⟨rfl, Or.inl (placeLoop_responded_status _ _ _ _ _ _ hloop)⟩
      | thrown e =>
        rw [postOrder_of_thrown st req env lines hl e products hloop]
        exact ⟨rfl, Or.inr rfl⟩
      | completed sub items =>
        rw [postOrder_of_completed st req env lines hl hne sub items products hloop]
        exact ⟨rfl, Or.inr rfl⟩

/-- The method `updateStatus` on a document with nothing marked as modified, for a status the
schema admits: it succeeds and stores `Order.afterUpdate`. -/
theorem Order.updateStatus_ok (orders : List Order) (id : Nat) (o : Order)
    (newStatus note : String) (updatedBy : Option ObjectId) (env : Env)
    (hs : newStatus ∈ statusEnum) :
    Order.updateStatus orders ⟨id, o, false, false⟩ newStatus note updatedBy env =
      (.ok ⟨id, o.afterUpdate newStatus note updatedBy env, false, false⟩,
        orders.set id (o.afterUpdate newStatus note updatedBy env)) := by
  by_cases h2 : newStatus = "delivered"
  · subst h2
    by_cases h1 : "delivered" = o.status
    · have hs1 : o.status ∈ statusEnum := h1 ▸ hs
      simp [Order.updateStatus, OrderDoc.setStatus, OrderDoc.save, Order.preSave,
        Order.afterUpdate, updateEntry, hookEntry, h1, hs1]
    · simp [Order.updateStatus, OrderDoc.setStatus, OrderDoc.save, Order.preSave,
        Order.afterUpdate, updateEntry, hookEntry, h1, hs]
  · by_cases h1 : newStatus = o.status
    · subst h1
      simp [Order.updateStatus, OrderDoc.setStatus, OrderDoc.save, Order.preSave,
        Order.afterUpdate, updateEntry, hookEntry, h2, hs]
    · simp [Order.updateStatus, OrderDoc.setStatus, OrderDoc.save, Order.preSave,
        Order.afterUpdate, updateEntry, hookEntry, h1, h2, hs]

/-- The method `updateStatus` for a status the schema does not admit: the save is rejected and
the order collection stays as it was. -/
theorem Order.updateStatus_invalid (orders : List Order) (id : Nat) (o : Order)
    (newStatus note : String) (updatedBy : Option ObjectId) (env : Env)
    (hs : newStatus ∉ statusEnum) :
    Order.updateStatus orders ⟨id, o, false, false⟩ newStatus note updatedBy env =
      (.error "Order validation failed", orders) := by
  by_cases h2 : newStatus = "delivered"
  · subst h2
    simp [statusEnum] at hs
  · by_cases h1 : newStatus = o.status
    · subst h1
      simp [Order.updateStatus, OrderDoc.setStatus, OrderDoc.save, Order.preSave, h2, hs]
    · simp [Order.updateStatus, OrderDoc.setStatus, OrderDoc.save, Order.preSave, h1, h2, hs]

/-- The history of `Order.afterUpdate` extends the history before. -/
theorem Order.afterUpdate_history_extends (o : Order) (newStatus note : String)
    (updatedBy : Option ObjectId) (env : Env) :
    o.statusHistory <+: (o.afterUpdate newStatus note updatedBy env).statusHistory := by
  simp only [Order.afterUpdate, List.append_assoc]
  exact List.prefix_append _ _

/-- Whatever its outcome, `updateStatus` on the document loaded from position `id` leaves at
that position an order whose history extends the history before. -/
theorem Order.updateStatus_history_extends (orders : List Order) (id : Nat) (o : Order)
    (ho : orders[id]? = some o) (newStatus note : String) (updatedBy : Option ObjectId)
    (env : Env) :
    ∃ o1, (Order.updateStatus orders ⟨id, o, false, false⟩ newStatus note updatedBy env).2[id]?
        = some o1 ∧ o.statusHistory <+: o1.statusHistory := by
  by_cases hs : newStatus ∈ statusEnum
  · rw [Order.updateStatus_ok orders id o newStatus note updatedBy env hs]
    have hlt : id < orders.length := (List.getElem?_eq_some.mp ho).1
    exact ⟨_, List.getElem?_set_self hlt, Order.afterUpdate_history_extends _ _ _ _ _⟩
  · rw [Order.updateStatus_invalid orders id o newStatus note updatedBy env hs]
    exact ⟨o, ho, List.prefix_refl _⟩

theorem itemsQty_cons (i : OrderItem) (rest : List OrderItem) (pid : ObjectId) :
    itemsQty (i :: rest) pid = (if i.product = pid then i.quantity else 0) + itemsQty rest pid := by
  unfold itemsQty
  by_cases h : i.product = pid <;> simp [List.filter_cons, h]

theorem restoreStock_cons (i : OrderItem) (rest : List OrderItem) (cat : Catalog) :
    restoreStock (i :: rest) cat =
      restoreStock rest (Product.findByIdAndUpdateIncStock cat i.product i.quantity) := rfl

/-- The stock of the product `pid` after one `$inc` aimed at the product `id`. -/
theorem Product.findByIdAndUpdateIncStock_stock (cat : Catalog) (id : ObjectId) (n : Int)
    (pid : ObjectId) :
    ((Product.findByIdAndUpdateIncStock cat id n) pid).map (fun p => p.stock) =
      (cat pid).map (fun p => p.stock + (if id = pid then n else 0)) := by
  unfold Product.findByIdAndUpdateIncStock
  by_cases e : id = pid
  · subst e
    cases h : cat id <;> simp [h]
  · have e1 : pid ≠ id := fun h => e h.symm
    cases h : cat id <;> simp [e, Function.update_noteq e1]

/-- An `$inc` aimed at another product leaves the document alone. -/
theorem Product.findByIdAndUpdateIncStock_other (cat : Catalog) (id : ObjectId) (n : Int)
    (pid : ObjectId) (e : id ≠ pid) :
    (Product.findByIdAndUpdateIncStock cat id n) pid = cat pid := by
  unfold Product.findByIdAndUpdateIncStock
  have e1 : pid ≠ id := fun h => e h.symm
  cases h : cat id <;> simp [Function.update_noteq e1]

/-- The stock of every product after the restoring loop of the cancellation handler. -/
theorem restoreStock_stock (items : List OrderItem) :
    ∀ (cat : Catalog) (pid : ObjectId),
      ((restoreStock items cat) pid).map (fun p => p.stock) =
        (cat pid).map (fun p => p.stock + itemsQty items pid) := by
  induction items with
  | nil => intro cat pid; cases h : cat pid <;> simp [restoreStock, itemsQty, h]
  | cons i rest ih =>
    intro cat pid
    rw [restoreStock_cons, ih, itemsQty_cons]
    have h := Product.findByIdAndUpdateIncStock_stock cat i.product i.quantity pid
    cases h1 : (Product.findByIdAndUpdateIncStock cat i.product i.quantity) pid with
    | none =>
      rw [h1] at h
      cases h2 : cat pid with
      | none => rfl
      | some p => rw [h2] at h; simp at h
    | some p1 =>
      rw [h1] at h
      cases h2 : cat pid with
      | none => rw [h2] at h; simp at h
      | some p =>
        rw [h2] at h
        simp only [Option.map_some', Option.some.injEq] at h ⊢
        rw [h]
        ring

/-- The restoring loop leaves alone every product no item references. -/
theorem restoreStock_other (items : List OrderItem) :
    ∀ (cat : Catalog) (pid : ObjectId), (∀ i ∈ items, i.product ≠ pid) →
      (restoreStock items cat) pid = cat pid := by
  induction items with
  | nil => intro cat pid _; rfl
  | cons i rest ih =>
    intro cat pid h
    rw [restoreStock_cons, ih _ _ (fun j hj => h j (List.mem_cons_of_mem _ hj))]
    exact Product.findByIdAndUpdateIncStock_other cat _ _ pid (h i (List.mem_cons_self _ _))

theorem Order.findById_of_getElem? (orders : List Order) (id : Nat) (o : Order)
    (ho : orders[id]? = some o) :
    Order.findById orders id = some ⟨id, o, false, false⟩ := by
  simp [Order.findById, ho]

theorem Order.findById_of_none (orders : List Order) (id : Nat) (ho : orders[id]? = none) :
    Order.findById orders id = none := by
  simp [Order.findById, ho]

/-- The method `canBeCancelled` holds exactly for the three early statuses. -/
theorem Order.canBeCancelled_iff (o : Order) :
    o.canBeCancelled = true ↔
      o.status = "pending" ∨ o.status = "confirmed" ∨ o.status = "processing" := by
  simp [Order.canBeCancelled]

/-- The cancellation handler on a stored order that can be cancelled. -/
theorem putCancel_of_cancellable (st : State) (id : Nat) (o : Order) (reason : Option String)
    (env : Env) (ho : st.orders[id]? = some o) (hc : o.canBeCancelled = true) :
    putCancel st id reason env =
      (⟨200, .message "Order cancelled successfully"⟩,
        { products := restoreStock o.items st.products
          orders := st.orders.set id
            (o.afterUpdate "cancelled" (orDefault reason "Cancelled by customer") none env) }) := by
  have hs : "cancelled" ∈ statusEnum := by simp [statusEnum]
  simp only [putCancel, Order.findById_of_getElem? _ _ _ ho, hc, Bool.not_true,
    Bool.false_eq_true, if_false, Order.updateStatus_ok _ _ _ _ _ _ _ hs]

/-- The cancellation handler on a stored order that cannot be cancelled. -/
theorem putCancel_of_not_cancellable (st : State) (id : Nat) (o : Order)
    (reason : Option String) (env : Env) (ho : st.orders[id]? = some o)
    (hc : o.canBeCancelled = false) :
    putCancel st id reason env =
      (⟨400, .error "Order cannot be cancelled at this stage"⟩, st) := by
  simp only [putCancel, Order.findById_of_getElem? _ _ _ ho, hc, Bool.not_false, if_true]

theorem Order.withTracking_status (o : Order) (req : StatusRequest) :
    (o.withTracking req).status = o.status := by
  unfold Order.withTracking
  split_ifs <;> rfl

theorem Order.withTracking_statusHistory (o : Order) (req : StatusRequest) :
    (o.withTracking req).statusHistory = o.statusHistory := by
  unfold Order.withTracking
  split_ifs <;> rfl

/-- The status handler on a stored order, for a status the schema admits. -/
theorem putStatus_of_valid (st : State) (id : Nat) (o : Order) (req : StatusRequest)
    (env : Env) (ho : st.orders[id]? = some o) (hs : req.status ∈ statusEnum) :
    putStatus st id req env =
      (⟨200, .updated "Order status updated"
          ((o.withTracking req).afterUpdate req.status (req.note.getD "") none env)⟩,
        { products := st.products
          orders := (st.orders.set id
            ((o.withTracking req).afterUpdate req.status (req.note.getD "") none env)) }) := by
  unfold putStatus Order.withTracking
  rw [Order.findById_of_getElem? _ _ _ ho]
  dsimp only
  split_ifs <;> rw [Order.updateStatus_ok _ _ _ _ _ _ _ hs]

/-- The status handler on a stored order, for a status the schema does not admit. -/
theorem putStatus_of_invalid (st : State) (id : Nat) (o : Order) (req : StatusRequest)
    (env : Env) (ho : st.orders[id]? = some o) (hs : req.status ∉ statusEnum) :
    putStatus st id req env = (⟨500, .error "Failed to update order status"⟩, st) := by
  unfold putStatus
  rw [Order.findById_of_getElem? _ _ _ ho]
  dsimp only
  split_ifs <;> rw [Order.updateStatus_invalid _ _ _ _ _ _ _ hs]

/-- The order number the hook would build at the sample clock reading and draw: the floor of the
double product is 421. -/
theorem sample_orderNumber : generateOrderNumber sampleEnv = "ORD-20240307-0421" := by
  have h : (⌊jsMul sampleEnv.random 10000⌋).toNat = 421 := by
    simp only [sampleEnv, double_0_0421, double_draw_times_10000]
    norm_num
    rfl
  simp only [generateOrderNumber, randomSuffix, h]
  decide

/-- The loop on the cart of the scenario: the two pieces of P1 are reserved, the subtotal is
20.00 and one snapshot is collected. -/
theorem sample_loop :
    placeLoop [{ productId := P1, quantity := 2, extra := [] }] sampleCatalog 0 [] =
      (.completed 20 sampleOrder.items,
        Function.update sampleCatalog P1 (some (sampleProduct.reduced 2))) := by
  have h20 : jsAdd 0 (jsMul sampleProduct.price ((2 : Int) : ℚ)) = 20 := by
    simp only [jsAdd, jsMul, sampleProduct]
    norm_num [double_20]
  rw [placeLoop_cons_ok _ _ _ _ _ P1 sampleProduct (by decide) rfl (by decide)]
  simp only [h20, placeLoop, List.nil_append]
  rfl

/-- The amounts of the object the handler passes to `Order.create` in the scenario: the tax is
the double 1.6, the shipping cost the double 5.99, and the total the double printed
27.590000000000003. -/
theorem sample_fields :
    (placementFields sampleRequest sampleEnv 20 sampleOrder.items).subtotal = 20 ∧
    (placementFields sampleRequest sampleEnv 20 sampleOrder.items).tax =
      3602879701896397 / 2251799813685248 ∧
    (placementFields sampleRequest sampleEnv 20 sampleOrder.items).shippingCost =
      3372070220993659 / 562949953421312 ∧
    (placementFields sampleRequest sampleEnv 20 sampleOrder.items).total =
      970736825930875 / 35184372088832 := by
  have hs : shippingCostFor sampleRequest.shippingMethod 20 =
      3372070220993659 / 562949953421312 := by
    simp only [shippingCostFor, sampleRequest, sampleRequestFor]
    rw [if_neg (by decide), if_neg (by decide), if_neg (by norm_num), double_5_99]
  refine ⟨rfl, ?_, ?_, ?_⟩
  · show jsMul 20 (roundDouble 0.08) = _
    rw [double_tax]
  · exact hs
  · show jsAdd (jsAdd 20 (jsMul 20 (roundDouble 0.08)))
      (shippingCostFor sampleRequest.shippingMethod 20) = _
    rw [hs, double_tax, double_20_plus_tax, double_total]

/-- The loop on one piece of each of the products priced 12.11, 19.99 and 17.9: the subtotal is
the double printed 49.99999999999999. -/
theorem three_price_loop :
    ∃ (items : List OrderItem) (cat : Catalog),
      placeLoop threePriceLines threePriceCatalog 0 [] =
        (.completed (7036874417766399 / 140737488355328) items, cat) := by
  have h1 : jsAdd 0 (jsMul (roundDouble 12.11) ((1 : Int) : ℚ)) =
      852165491991511 / 70368744177664 := by
    simp only [jsAdd, jsMul, Int.cast_one, mul_one, zero_add, double_12_11, double_12_11_idem]
  have h2 : jsMul (roundDouble 19.99) ((1 : Int) : ℚ) = 5626684784446013 / 281474976710656 := by
    simp only [jsMul, Int.cast_one, mul_one, double_19_99, double_19_99_idem]
  have h3 : jsMul (roundDouble 17.9) ((1 : Int) : ℚ) = 2519201041560371 / 140737488355328 := by
    simp only [jsMul, Int.cast_one, mul_one, double_17_9, double_17_9_idem]
  unfold threePriceLines
  rw [placeLoop_cons_ok _ _ _ _ _ P1
      { sampleProduct with price := roundDouble 12.11, stock := 10 } (by decide) rfl (by decide),
    placeLoop_cons_ok _ _ _ _ _ P2
      { sampleProduct with price := roundDouble 19.99, stock := 10 } (by decide)
      (by rw [Function.update_noteq (by decide)]; rfl) (by decide),
    placeLoop_cons_ok _ _ _ _ _ P3
      { sampleProduct with price := roundDouble 17.9, stock := 10 } (by decide)
      (by rw [Function.update_noteq (by decide), Function.update_noteq (by decide)]; rfl)
      (by decide)]
  simp only [h1, h2, h3, double_two_prices, double_three_prices, placeLoop]
  exact ⟨_, _, rfl⟩

/-- The placement handler does not read `isActive`: the scenario run against the catalog in
which P1 is inactive ends like the scenario itself, with the two pieces reserved. -/
theorem inactive_product_is_ordered :
    (postOrder ⟨inactiveCatalog, []⟩ sampleRequest sampleEnv).1 =
      (postOrder sampleState sampleRequest sampleEnv).1 ∧
    ((postOrder ⟨inactiveCatalog, []⟩ sampleRequest sampleEnv).2.products P1).map
      (fun p => (p.isActive, p.stock)) = some (false, 3) := by
  constructor <;> decide

/-- The placement loop over a cart split in two: the second part starts from what the first
part leaves when it runs through. -/
theorem placeLoop_append (pre rest : List CartLine) :
    ∀ (cat : Catalog) (sub : ℚ) (items : List OrderItem) (sub1 : ℚ) (items1 : List OrderItem)
      (cat1 : Catalog),
      placeLoop pre cat sub items = (.completed sub1 items1, cat1) →
      placeLoop (pre ++ rest) cat sub items = placeLoop rest cat1 sub1 items1 := by
  induction pre with
  | nil =>
    intro cat sub items sub1 items1 cat1 h
    simp only [placeLoop, Prod.mk.injEq, LoopOutcome.completed.injEq] at h
    obtain ⟨⟨rfl, rfl⟩, rfl⟩ := h
    rfl
  | cons l pre ih =>
    intro cat sub items sub1 items1 cat1 h
    cases hid : castObjectId l.productId with
    | none => rw [placeLoop_cons_malformed l pre cat sub items hid] at h; simp at h
    | some id =>
      cases hp : cat id with
      | none => rw [placeLoop_cons_missing l pre cat sub items id hid hp] at h; simp at h
      | some p =>
        by_cases hq : l.quantity ≤ p.stock
        · rw [placeLoop_cons_ok l pre cat sub items id p hid hp hq] at h
          rw [List.cons_append, placeLoop_cons_ok l (pre ++ rest) cat sub items id p hid hp hq]
          exact ih _ _ _ _ _ _ h
        · rw [placeLoop_cons_short l pre cat sub items id p hid hp (not_le.mp hq)] at h
          simp at h

/-- A product the catalog does not hold before the loop is not held after it. -/
theorem placeLoop_completed_missing (lines : List CartLine) (cat : Catalog) (sub : ℚ)
    (items : List OrderItem) (sub1 : ℚ) (items1 : List OrderItem) (cat1 : Catalog)
    (h : placeLoop lines cat sub items = (.completed sub1 items1, cat1)) (id : ObjectId)
    (hmiss : cat id = none) : cat1 id = none := by
  have hs := (placeLoop_completed lines _ _ _ _ _ _ h).1 id
  rw [hmiss] at hs
  cases hc : cat1 id with
  | none => rfl
  | some p => rw [hc] at hs; simp at hs

/-- The placement loop over a cart whose line `l` is not found in the catalog the lines before
it leave: the loop answers from that line and the catalog stays as those lines left it. -/
theorem placeLoop_stop_missing (pre : List CartLine) (l : CartLine) (post : List CartLine)
    (cat : Catalog) (sub : ℚ) (items : List OrderItem) (sub1 : ℚ) (items1 : List OrderItem)
    (cat1 : Catalog) (hpre : placeLoop pre cat sub items = (.completed sub1 items1, cat1))
    (id : ObjectId) (hid : castObjectId l.productId = some id) (hp : cat1 id = none) :
    placeLoop (pre ++ l :: post) cat sub items =
      (.responded ⟨400, .error ("Product not found: " ++ l.productId)⟩, cat1) := by
  rw [placeLoop_append pre (l :: post) _ _ _ _ _ _ hpre,
    placeLoop_cons_missing l post cat1 sub1 items1 id hid hp]

/-- The placement loop over a cart whose line `l` asks for more than the stock the lines before
it leave: the loop answers from that line and the catalog stays as those lines left it. -/
theorem placeLoop_stop_short (pre : List CartLine) (l : CartLine) (post : List CartLine)
    (cat : Catalog) (sub : ℚ) (items : List OrderItem) (sub1 : ℚ) (items1 : List OrderItem)
    (cat1 : Catalog) (hpre : placeLoop pre cat sub items = (.completed sub1 items1, cat1))
    (id : ObjectId) (p : Product) (hid : castObjectId l.productId = some id)
    (hp : cat1 id = some p) (hq : p.stock < l.quantity) :
    placeLoop (pre ++ l :: post) cat sub items =
      (.responded ⟨400, .error ("Insufficient stock for: " ++ p.name)⟩, cat1) := by
  rw [placeLoop_append pre (l :: post) _ _ _ _ _ _ hpre,
    placeLoop_cons_short l post cat1 sub1 items1 id p hid hp hq]

/-- The placement loop over a cart whose line `l` carries a `productId` that is not a
well-formed identifier: `findById` throws at that line and the catalog stays as the lines
before it left it. -/
theorem placeLoop_stop_malformed (pre : List CartLine) (l : CartLine) (post : List CartLine)
    (cat : Catalog) (sub : ℚ) (items : List OrderItem) (sub1 : ℚ) (items1 : List OrderItem)
    (cat1 : Catalog) (hpre : placeLoop pre cat sub items = (.completed sub1 items1, cat1))
    (hid : castObjectId l.productId = none) :
    placeLoop (pre ++ l :: post) cat sub items = (.thrown castErrorMessage, cat1) := by
  rw [placeLoop_append pre (l :: post) _ _ _ _ _ _ hpre,
    placeLoop_cons_malformed l post cat1 sub1 items1 hid]

/-! # The claims -/

/-! ## Stock reservation -/

/-- C1: `reduceStock` never oversells. For every product and every quantity `q`: when the stock
is at least `q` the call succeeds, the document it stores has stock exactly `stock - q`, which is
not negative; when the stock is below `q` the call throws `Insufficient stock` and the catalog is
left as it was. (The bound `stock >= 0` of the claim is not needed.) -/
theorem reduceStock_never_oversells (cat : Catalog) (id : ObjectId) (p : Product) (q : Int) :
    (q ≤ p.stock →
      ∃ p1 : Product,
        Product.reduceStock cat id p q = (.ok p1, Function.update cat id (some p1)) ∧
        p1.stock = p.stock - q ∧ 0 ≤ p1.stock) ∧
    (p.stock < q →
      Product.reduceStock cat id p q = (.error "Insufficient stock", cat)) := by
  refine ⟨fun h => ⟨p.reduced q, Product.reduceStock_of_le cat id p q h, rfl, ?_⟩,
    Product.reduceStock_of_lt cat id p q⟩
  show 0 ≤ p.stock - q
  omega

/-- Witness of C1: five in stock, a call for two succeeds and leaves three, a call for six
throws. -/
theorem reduceStock_never_oversells_witness :
    (∃ p1 : Product,
        Product.reduceStock sampleCatalog P1 sampleProduct 2 =
          (.ok p1, Function.update sampleCatalog P1 (some p1)) ∧
        p1.stock = sampleProduct.stock - 2 ∧ 0 ≤ p1.stock) ∧
    Product.reduceStock sampleCatalog P1 sampleProduct 6 =
      (.error "Insufficient stock", sampleCatalog) :=
  ⟨(reduceStock_never_oversells sampleCatalog P1 sampleProduct 2).1 (by decide),
   (reduceStock_never_oversells sampleCatalog P1 sampleProduct 6).2 (by decide)⟩

/-- C2, the code at the failing input: the scenario of the specification, two pieces of P1, of
which five are in stock, every property of the request valid. The loop reserves the two pieces,
`Order.create` then rejects the document, whose required `orderNumber` is absent when the
validators run, and the `catch` block answers with status 500: the placement does not succeed,
three pieces are left in stock and no order exists. -/
theorem placement_reserves_without_order :
    (sampleState.products P1).map (fun p => p.stock) = some 5 ∧
    sampleRequest.items = some [{ productId := P1, quantity := 2, extra := [] }] ∧
    (postOrder sampleState sampleRequest sampleEnv).1 =
      ⟨500, .error "Order validation failed"⟩ ∧
    ((postOrder sampleState sampleRequest sampleEnv).2.products P1).map (fun p => p.stock) =
      some 3 ∧
    (postOrder sampleState sampleRequest sampleEnv).2.orders.length = 0 := by
  refine ⟨rfl, rfl, ?_, ?_, ?_⟩ <;> decide

/-! ## Totals -/

/-- C3, the code at the failing input: the scenario of the specification. The loop runs
through the cart with subtotal 20.00; the handler computes the tax, the double 1.6, the
shipping cost, the double 5.99, and the total, the double printed 27.590000000000003, which is
not the exact sum of the three; and no order is stored to carry them: the order collection is
empty afterwards. -/
theorem placement_totals_never_stored :
    (placeLoop [{ productId := P1, quantity := 2, extra := [] }] sampleState.products 0 []).1 =
      .completed 20 sampleOrder.items ∧
    (placementFields sampleRequest sampleEnv 20 sampleOrder.items).tax =
      3602879701896397 / 2251799813685248 ∧
    (placementFields sampleRequest sampleEnv 20 sampleOrder.items).shippingCost =
      3372070220993659 / 562949953421312 ∧
    (placementFields sampleRequest sampleEnv 20 sampleOrder.items).total =
      970736825930875 / 35184372088832 ∧
    (970736825930875 / 35184372088832 : ℚ) ≠
      20 + 3602879701896397 / 2251799813685248 + 3372070220993659 / 562949953421312 ∧
    (postOrder sampleState sampleRequest sampleEnv).2.orders = [] := by
  obtain ⟨_, htax, hship, htotal⟩ := sample_fields
  refine ⟨?_, htax, hship, htotal, by norm_num, by decide⟩
  show (placeLoop _ sampleCatalog 0 []).1 = _
  rw [sample_loop]

/-! ## Shipping cost -/

/-- C4: the shipping cost the placement handler computes is the double 9.99 for the method
express, the double 19.99 for overnight, and for every other method, or none, 0 when the
subtotal is at least 50 and the double 5.99 when it is below; and the object the handler
passes to `Order.create` carries that cost for the method of the request and the subtotal the
loop has added up. -/
theorem shipping_cost_rule (m : Option String) (s : ℚ) :
    (m = some "express" → shippingCostFor m s = roundDouble 9.99) ∧
    (m = some "overnight" → shippingCostFor m s = roundDouble 19.99) ∧
    (m ≠ some "express" → m ≠ some "overnight" →
      (50 ≤ s → shippingCostFor m s = 0) ∧
      (s < 50 → shippingCostFor m s = roundDouble 5.99)) ∧
    ∀ (req : OrderRequest) (env : Env) (items : List OrderItem), req.shippingMethod = m →
      (placementFields req env s items).shippingCost = shippingCostFor m s ∧
      (placementFields req env s items).subtotal = s := by
  refine ⟨fun h => by simp [shippingCostFor, h], fun h => by simp [shippingCostFor, h],
    fun h1 h2 => ⟨fun h3 => by simp [shippingCostFor, h1, h2, h3],
      fun h3 => by simp [shippingCostFor, h1, h2, not_le.mpr h3]⟩, ?_⟩
  intro req env items h
  subst h
  exact ⟨rfl, rfl⟩

/-- Witness of C4: standard shipping costs nothing on a subtotal of 60.00 and on a subtotal of
exactly 50.00 and the double 5.99 on 20.00; express and overnight cost their fees; the object
built in the scenario carries the double 5.99; and one piece of each of the products priced
12.11, 19.99 and 17.9 adds up to the double printed 49.99999999999999, below 50, on which
standard shipping costs the double 5.99. -/
theorem shipping_cost_rule_witness :
    shippingCostFor (some "standard") 60 = 0 ∧
    shippingCostFor (some "standard") 50 = 0 ∧
    shippingCostFor (some "standard") 20 = roundDouble 5.99 ∧
    shippingCostFor (some "express") 60 = roundDouble 9.99 ∧
    shippingCostFor (some "overnight") 60 = roundDouble 19.99 ∧
    (placementFields sampleRequest sampleEnv 20 sampleOrder.items).shippingCost =
      shippingCostFor (some "standard") 20 ∧
    (∃ (items : List OrderItem) (cat : Catalog),
      placeLoop threePriceLines threePriceCatalog 0 [] =
        (.completed (7036874417766399 / 140737488355328) items, cat)) ∧
    shippingCostFor (some "standard") (7036874417766399 / 140737488355328) =
      roundDouble 5.99 :=
  ⟨((shipping_cost_rule (some "standard") 60).2.2.1 (by decide) (by decide)).1 (by norm_num),
   ((shipping_cost_rule (some "standard") 50).2.2.1 (by decide) (by decide)).1 (by norm_num),
   ((shipping_cost_rule (some "standard") 20).2.2.1 (by decide) (by decide)).2 (by norm_num),
   (shipping_cost_rule (some "express") 60).1 rfl,
   (shipping_cost_rule (some "overnight") 60).2.1 rfl,
   ((shipping_cost_rule (some "standard") 20).2.2.2 sampleRequest sampleEnv _ rfl).1,
   three_price_loop,
   ((shipping_cost_rule (some "standard") (7036874417766399 / 140737488355328)).2.2.1
     (by decide) (by decide)).2 (by norm_num)⟩

/-! ## Status history -/

/-- The history after a successful `updateStatus` that changes the status is two entries longer
than before: the entry of `updateStatus` and the entry of the pre-save hook. -/
theorem Order.afterUpdate_history_length (o : Order) (newStatus note : String)
    (updatedBy : Option ObjectId) (env : Env) :
    (o.afterUpdate newStatus note updatedBy env).statusHistory.length =
      o.statusHistory.length + (if newStatus = o.status then 1 else 2) := by
  by_cases h : newStatus = o.status <;> simp [Order.afterUpdate, h]

/-- C5, the code at the failing input: the stored sample order is pending and its history has
one entry; `updateStatus` to confirmed on the document loaded from the store succeeds and the
order stored afterwards has a history of three entries, two more than before, not one. -/
theorem updateStatus_appends_two_entries :
    sampleOrder.statusHistory.length = 1 ∧
    ∃ d : OrderDoc, Order.findById [sampleOrder] 0 = some d ∧
      (Order.updateStatus [sampleOrder] d "confirmed" "Payment received" none sampleEnv).2.map
        (fun o => o.statusHistory.length) = [3] := by
  refine ⟨rfl, _, Order.findById_of_getElem? [sampleOrder] 0 sampleOrder rfl, ?_⟩
  rw [Order.updateStatus_ok _ _ _ _ _ _ _ (by decide)]
  simp only [List.set_cons_zero, List.map_cons, List.map_nil, Order.afterUpdate_history_length]
  rfl

/-- C6, the code at the failing input: after `updateStatus` to confirmed with the note
`Payment received` on the stored pending sample order, the stored status is confirmed, but the
final entry of the stored history is the entry of the pre-save hook, which has the status and
no note; the entry carrying the note is the one before it. -/
theorem updateStatus_final_entry_lacks_note :
    ∃ d : OrderDoc, Order.findById [sampleOrder] 0 = some d ∧
      (Order.updateStatus [sampleOrder] d "confirmed" "Payment received" none sampleEnv).2.map
        (fun o => (o.status, o.statusHistory.getLast?.map (fun e => (e.status, e.note)))) =
        [("confirmed", some ("confirmed", none))] ∧
      (Order.updateStatus [sampleOrder] d "confirmed" "Payment received" none sampleEnv).2.map
        (fun o => o.statusHistory.map (fun e => (e.status, e.note))) =
        [[("pending", some "Order placed"), ("confirmed", some "Payment received"),
          ("confirmed", none)]] := by
  refine ⟨_, Order.findById_of_getElem? [sampleOrder] 0 sampleOrder rfl, ?_, ?_⟩ <;>
    rw [Order.updateStatus_ok _ _ _ _ _ _ _ (by decide)] <;> decide

/-- C7: the status history is append-only. For every stored order, whatever the outcome, the
history stored before is a prefix of the history stored after `updateStatus` on the document
loaded from the store, after the status handler and after the cancellation handler. -/
theorem statusHistory_append_only (st : State) (id : Nat) (o : Order) (env : Env)
    (ho : st.orders[id]? = some o) :
    (∀ (d : OrderDoc) (newStatus note : String) (updatedBy : Option ObjectId),
      Order.findById st.orders id = some d →
      ∃ o1, (Order.updateStatus st.orders d newStatus note updatedBy env).2[id]? = some o1 ∧
        o.statusHistory <+: o1.statusHistory) ∧
    (∀ req : StatusRequest,
      ∃ o1, (putStatus st id req env).2.orders[id]? = some o1 ∧
        o.statusHistory <+: o1.statusHistory) ∧
    (∀ reason : Option String,
      ∃ o1, (putCancel st id reason env).2.orders[id]? = some o1 ∧
        o.statusHistory <+: o1.statusHistory) := by
  have hfind := Order.findById_of_getElem? st.orders id o ho
  have hlt : id < st.orders.length := (List.getElem?_eq_some.mp ho).1
  refine ⟨?_, ?_, ?_⟩
  · intro d newStatus note updatedBy hd
    rw [hfind] at hd
    cases hd
    exact Order.updateStatus_history_extends st.orders id o ho newStatus note updatedBy env
  · intro req
    by_cases hs : req.status ∈ statusEnum
    · rw [putStatus_of_valid st id o req env ho hs]
      refine ⟨_, List.getElem?_set_self hlt, ?_⟩
      rw [← Order.withTracking_statusHistory o req]
      exact Order.afterUpdate_history_extends _ _ _ _ _
    · rw [putStatus_of_invalid st id o req env ho hs]
      exact ⟨o, ho, List.prefix_refl _⟩
  · intro reason
    by_cases hc : o.canBeCancelled = true
    · rw [putCancel_of_cancellable st id o reason env ho hc]
      exact ⟨_, List.getElem?_set_self hlt, Order.afterUpdate_history_extends _ _ _ _ _⟩
    · rw [putCancel_of_not_cancellable st id o reason env ho (by simpa using hc)]
      exact ⟨o, ho, List.prefix_refl _⟩

/-- Witness of C7: the stored sample order, updated to confirmed and cancelled. -/
theorem statusHistory_append_only_witness :
    placedState.orders[0]? = some sampleOrder ∧
    (∃ o1, (putStatus placedState 0 ⟨"confirmed", some "Payment received", none, none⟩
        sampleEnv).2.orders[0]? = some o1 ∧ sampleOrder.statusHistory <+: o1.statusHistory) ∧
    (∃ o1, (putCancel placedState 0 none sampleEnv).2.orders[0]? = some o1 ∧
        sampleOrder.statusHistory <+: o1.statusHistory) :=
  ⟨rfl,
   (statusHistory_append_only placedState 0 sampleOrder sampleEnv rfl).2.1
     ⟨"confirmed", some "Payment received", none, none⟩,
   (statusHistory_append_only placedState 0 sampleOrder sampleEnv rfl).2.2 none⟩

/-! ## Cancellation -/

/-- C8: cancelling a stored order whose status is pending, confirmed or processing is answered
with the success message; afterwards the order is stored with status cancelled, the stock of
every stored product is its stock before plus the sum of the quantities of the items that
reference it, and a product no item references is unchanged. (That every item references a
stored product, as the claim assumes, is not needed.) -/
theorem cancel_restores_stock (st : State) (id : Nat) (o : Order) (reason : Option String)
    (env : Env) (ho : st.orders[id]? = some o)
    (hs : o.status = "pending" ∨ o.status = "confirmed" ∨ o.status = "processing") :
    (putCancel st id reason env).1 = ⟨200, .message "Order cancelled successfully"⟩ ∧
    (∃ o1, (putCancel st id reason env).2.orders[id]? = some o1 ∧ o1.status = "cancelled") ∧
    (∀ pid p, st.products pid = some p →
      ∃ p1, (putCancel st id reason env).2.products pid = some p1 ∧
        p1.stock = p.stock + itemsQty o.items pid) ∧
    (∀ pid, (∀ i ∈ o.items, i.product ≠ pid) →
      (putCancel st id reason env).2.products pid = st.products pid) := by
  have hlt : id < st.orders.length := (List.getElem?_eq_some.mp ho).1
  rw [putCancel_of_cancellable st id o reason env ho ((Order.canBeCancelled_iff o).mpr hs)]
  refine ⟨rfl, ⟨_, List.getElem?_set_self hlt, rfl⟩, ?_, fun pid h => restoreStock_other _ _ _ h⟩
  intro pid p hp
  have h := restoreStock_stock o.items st.products pid
  rw [hp] at h
  cases h1 : restoreStock o.items st.products pid with
  | none => rw [h1] at h; simp at h
  | some p1 =>
    rw [h1] at h
    exact ⟨p1, h1, by simpa using h⟩

/-- Witness of C8: cancelling the stored sample order returns P1 from three in stock to five. -/
theorem cancel_restores_stock_witness :
    (putCancel placedState 0 none sampleEnv).1 = ⟨200, .message "Order cancelled successfully"⟩ ∧
    (∃ o1, (putCancel placedState 0 none sampleEnv).2.orders[0]? = some o1 ∧
      o1.status = "cancelled") ∧
    ∃ p1, (putCancel placedState 0 none sampleEnv).2.products P1 = some p1 ∧
      p1.stock = 5 := by
  obtain ⟨h1, h2, h3, _⟩ :=
    cancel_restores_stock placedState 0 sampleOrder none sampleEnv rfl (Or.inl rfl)
  obtain ⟨p1, hp1, hstock⟩ := h3 P1 (sampleProduct.reduced 2) rfl
  exact ⟨h1, h2, p1, hp1, by rw [hstock]; decide⟩

/-- C9: `canBeCancelled` holds exactly when the status is pending, confirmed or processing;
cancelling a stored order whose status is shipped, delivered, cancelled or returned is answered
with status 400 and `Order cannot be cancelled at this stage` and leaves the whole database, the
stock of every product and every stored order with its status and history, as it was; and a
stored order is refused in this way exactly when `canBeCancelled` is false. -/
theorem cancel_refused_atomic (st : State) (id : Nat) (o : Order) (reason : Option String)
    (env : Env) (ho : st.orders[id]? = some o) :
    (o.canBeCancelled = true ↔
      o.status = "pending" ∨ o.status = "confirmed" ∨ o.status = "processing") ∧
    (o.status = "shipped" ∨ o.status = "delivered" ∨ o.status = "cancelled" ∨
        o.status = "returned" →
      putCancel st id reason env =
        (⟨400, .error "Order cannot be cancelled at this stage"⟩, st)) ∧
    ((putCancel st id reason env).1 = ⟨400, .error "Order cannot be cancelled at this stage"⟩ ↔
      o.canBeCancelled = false) := by
  refine ⟨Order.canBeCancelled_iff o, ?_, ?_⟩
  · intro hs
    apply putCancel_of_not_cancellable st id o reason env ho
    rcases hs with h | h | h | h <;> simp [Order.canBeCancelled, h]
  · constructor
    · intro h
      by_contra hc
      rw [putCancel_of_cancellable st id o reason env ho (by simpa using hc)] at h
      simp at h
    · intro hc
      rw [putCancel_of_not_cancellable st id o reason env ho hc]

/-- Witness of C9: cancelling the shipped sample order is refused and changes nothing. -/
theorem cancel_refused_atomic_witness :
    shippedState.orders[0]? = some shippedOrder ∧
    putCancel shippedState 0 none sampleEnv =
      (⟨400, .error "Order cannot be cancelled at this stage"⟩, shippedState) :=
  ⟨rfl, (cancel_refused_atomic shippedState 0 shippedOrder none sampleEnv rfl).2.1
    (Or.inl rfl)⟩

/-! ## Rejected carts -/

/-- C10, counterexample: the catalog holds no product P9 and the cart has a line for P9, yet
the placement is not answered with the product-not-found error for P9: the line before it asks
for nine pieces of P1, of which five are in stock, and the answer is the insufficient-stock
error of that line. And a `productId` that is not a well-formed identifier matches no product
either, yet the answer is not a product-not-found error: `findById` throws and the `catch`
block answers with status 500. -/
theorem missing_product_not_always_reported :
    sampleState.products P9 = none ∧
    shortThenMissingRequest.items =
      some [{ productId := P1, quantity := 9, extra := [] },
            { productId := P9, quantity := 1, extra := [] }] ∧
    (postOrder sampleState shortThenMissingRequest sampleEnv).1 =
      ⟨400, .error "Insufficient stock for: Mug"⟩ ∧
    (postOrder sampleState shortThenMissingRequest sampleEnv).1 ≠
      ⟨400, .error ("Product not found: " ++ P9)⟩ ∧
    castObjectId "not-an-id" = none ∧
    servedThenMalformedRequest.items =
      some [{ productId := P1, quantity := 2, extra := [] },
            { productId := "not-an-id", quantity := 1, extra := [] }] ∧
    (postOrder sampleState servedThenMalformedRequest sampleEnv).1 =
      ⟨500, .error "Cast to ObjectId failed"⟩ := by
  refine ⟨rfl, rfl, ?_, ?_, ?_, rfl, ?_⟩ <;> decide

/-- C10, amended: when the loop has run through the lines before a line whose `productId` is a
well-formed identifier under which the catalog holds no product, the placement is answered with
status 400 and the product-not-found error naming the `productId` of that line; when the
`productId` of that line is not well-formed, the placement is answered with status 500; in both
cases the catalog stays as the earlier lines left it and no order is created. -/
theorem missing_product_rejected (st : State) (req : OrderRequest) (env : Env)
    (pre : List CartLine) (l : CartLine) (post : List CartLine)
    (hl : req.items = some (pre ++ l :: post)) (sub : ℚ) (items : List OrderItem)
    (cat : Catalog) (hpre : placeLoop pre st.products 0 [] = (.completed sub items, cat)) :
    (∀ id, castObjectId l.productId = some id → st.products id = none →
      postOrder st req env =
        (⟨400, .error ("Product not found: " ++ l.productId)⟩,
          { products := cat, orders := st.orders })) ∧
    (castObjectId l.productId = none →
      postOrder st req env =
        (⟨500, .error castErrorMessage⟩, { products := cat, orders := st.orders })) := by
  constructor
  · intro id hid hmiss
    have hcat := placeLoop_completed_missing pre _ _ _ _ _ _ hpre id hmiss
    exact postOrder_of_responded st req env _ hl _ _
      (placeLoop_stop_missing pre l post _ _ _ _ _ _ hpre id hid hcat)
  · intro hid
    exact postOrder_of_thrown st req env _ hl _ _
      (placeLoop_stop_malformed pre l post _ _ _ _ _ _ hpre hid)

/-- Witness of C10 as amended: two pieces of P1 followed by one piece of the unknown P9, and
two pieces of P1 followed by a line whose `productId` is not a well-formed identifier. -/
theorem missing_product_rejected_witness :
    servedThenMissingRequest.items =
      some ([{ productId := P1, quantity := 2, extra := [] }] ++
        { productId := P9, quantity := 1, extra := [] } :: []) ∧
    castObjectId P9 = some P9 ∧ sampleState.products P9 = none ∧
    postOrder sampleState servedThenMissingRequest sampleEnv =
      (⟨400, .error ("Product not found: " ++ P9)⟩,
        { products := Function.update sampleCatalog P1 (some (sampleProduct.reduced 2)),
          orders := [] }) ∧
    castObjectId "not-an-id" = none ∧
    postOrder sampleState servedThenMalformedRequest sampleEnv =
      (⟨500, .error castErrorMessage⟩,
        { products := Function.update sampleCatalog P1 (some (sampleProduct.reduced 2)),
          orders := [] }) :=
  ⟨rfl, by decide, rfl,
   (missing_product_rejected sampleState servedThenMissingRequest sampleEnv
     [{ productId := P1, quantity := 2, extra := [] }]
     { productId := P9, quantity := 1, extra := [] } [] rfl _ _ _ sample_loop).1 P9
     (by decide) rfl,
   by decide,
   (missing_product_rejected sampleState servedThenMalformedRequest sampleEnv
     [{ productId := P1, quantity := 2, extra := [] }]
     { productId := "not-an-id", quantity := 1, extra := [] } [] rfl _ _ _ sample_loop).2
     (by decide)⟩

/-! ## Failing placements -/

/-- C11: when the loop has run through the lines before a line and the product of that line has
less stock left than the line asks for, the placement is answered with status 400 and the
insufficient-stock error naming that product, no order is created and the catalog stays as the
earlier lines left it; when the line is the first of the cart, the whole database stays as it
was. -/
theorem insufficient_stock_rejected (st : State) (req : OrderRequest) (env : Env)
    (pre : List CartLine) (l : CartLine) (post : List CartLine)
    (hl : req.items = some (pre ++ l :: post)) (sub : ℚ) (items : List OrderItem)
    (cat : Catalog) (hpre : placeLoop pre st.products 0 [] = (.completed sub items, cat))
    (id : ObjectId) (p : Product) (hid : castObjectId l.productId = some id)
    (hp : cat id = some p) (hq : p.stock < l.quantity) :
    postOrder st req env =
      (⟨400, .error ("Insufficient stock for: " ++ p.name)⟩,
        { products := cat, orders := st.orders }) ∧
    (pre = [] →
      postOrder st req env = (⟨400, .error ("Insufficient stock for: " ++ p.name)⟩, st)) := by
  have h := postOrder_of_responded st req env _ hl _ _
    (placeLoop_stop_short pre l post _ _ _ _ _ _ hpre id p hid hp hq)
  refine ⟨h, ?_⟩
  intro hnil
  subst hnil
  simp only [placeLoop, Prod.mk.injEq, LoopOutcome.completed.injEq] at hpre
  rw [h, ← hpre.2]

/-- Witness of C11: one piece of P1 in stock and a cart asking for two. -/
theorem insufficient_stock_rejected_witness :
    postOrder lowStockState sampleRequest sampleEnv =
      (⟨400, .error "Insufficient stock for: Mug"⟩, lowStockState) :=
  (insufficient_stock_rejected lowStockState sampleRequest sampleEnv []
    { productId := P1, quantity := 2, extra := [] } [] rfl 0 [] lowStockCatalog rfl
    P1 { sampleProduct with stock := 1 } (by decide) rfl (by decide)).2 rfl

/-- C13: when the loop has run through the lines before a line and that line fails, its
`productId` not a well-formed identifier, its product not found or with less stock left than
the line asks for, the placement is answered with an error, status 400, or 500 when the
`productId` is not well-formed, and creates no order, the catalog stays exactly as the earlier
lines left it, the stock of every product is its stock before minus the sum of the quantities
of the earlier lines that reference it, and a product no earlier line references is
unchanged. -/
theorem partial_failure_keeps_reservations (st : State) (req : OrderRequest) (env : Env)
    (pre : List CartLine) (l : CartLine) (post : List CartLine)
    (hl : req.items = some (pre ++ l :: post)) (sub : ℚ) (items : List OrderItem)
    (cat : Catalog) (hpre : placeLoop pre st.products 0 [] = (.completed sub items, cat))
    (hfail : castObjectId l.productId = none ∨
      ∃ id, castObjectId l.productId = some id ∧
        (cat id = none ∨ ∃ p, cat id = some p ∧ p.stock < l.quantity)) :
    (postOrder st req env).1.status = (if castObjectId l.productId = none then 500 else 400) ∧
    (postOrder st req env).2.orders = st.orders ∧
    (postOrder st req env).2.products = cat ∧
    (∀ pid, ((postOrder st req env).2.products pid).map (fun p => p.stock) =
      (st.products pid).map (fun p => p.stock - linesQty pre pid)) ∧
    (∀ pid, (∀ l1 ∈ pre, castObjectId l1.productId ≠ some pid) →
      (postOrder st req env).2.products pid = st.products pid) := by
  obtain ⟨hstock, hframe, _⟩ := placeLoop_completed pre _ _ _ _ _ _ hpre
  rcases hfail with hid | ⟨id, hid, hp | ⟨p, hp, hq⟩⟩
  · rw [postOrder_of_thrown st req env _ hl _ _
      (placeLoop_stop_malformed pre l post _ _ _ _ _ _ hpre hid), if_pos hid]
    exact ⟨rfl, rfl, rfl, hstock, hframe⟩
  · rw [postOrder_of_responded st req env _ hl _ _
      (placeLoop_stop_missing pre l post _ _ _ _ _ _ hpre id hid hp),
      if_neg (by rw [hid]; exact Option.some_ne_none _)]
    exact ⟨rfl, rfl, rfl, hstock, hframe⟩
  · rw [postOrder_of_responded st req env _ hl _ _
      (placeLoop_stop_short pre l post _ _ _ _ _ _ hpre id p hid hp hq),
      if_neg (by rw [hid]; exact Option.some_ne_none _)]
    exact ⟨rfl, rfl, rfl, hstock, hframe⟩

/-- Witness of C13: two pieces of P1 followed by the unknown P9; the placement fails at the
second line with status 400 and the two pieces of P1 stay reserved, three left of five. -/
theorem partial_failure_keeps_reservations_witness :
    (postOrder sampleState servedThenMissingRequest sampleEnv).1.status = 400 ∧
    (postOrder sampleState servedThenMissingRequest sampleEnv).2.orders = [] ∧
    ((postOrder sampleState servedThenMissingRequest sampleEnv).2.products P1).map
      (fun p => p.stock) = some 3 := by
  obtain ⟨h1, h2, _, h4, _⟩ :=
    partial_failure_keeps_reservations sampleState servedThenMissingRequest sampleEnv
      [{ productId := P1, quantity := 2, extra := [] }]
      { productId := P9, quantity := 1, extra := [] } [] rfl _ _ _ sample_loop
      (Or.inr ⟨P9, by decide, Or.inl (by decide)⟩)
  refine ⟨?_, h2, ?_⟩
  · rw [h1]
    decide
  · rw [h4 P1]
    decide

/-- C14: a placement whose `items` is absent or empty is answered with status 400 and
`No items in order`, and the database, every product and every order, stays as it was. -/
theorem empty_cart_rejected (st : State) (req : OrderRequest) (env : Env)
    (h : req.items = none ∨ req.items = some []) :
    postOrder st req env = (⟨400, .error "No items in order"⟩, st) := by
  rcases h with h | h <;> simp only [postOrder, h]

/-- Witness of C14: the sample request without its cart, and with an empty one. -/
theorem empty_cart_rejected_witness :
    postOrder sampleState { sampleRequest with items := none } sampleEnv =
      (⟨400, .error "No items in order"⟩, sampleState) ∧
    postOrder sampleState (sampleRequestFor []) sampleEnv =
      (⟨400, .error "No items in order"⟩, sampleState) :=
  ⟨empty_cart_rejected sampleState { sampleRequest with items := none } sampleEnv (Or.inl rfl),
   empty_cart_rejected sampleState (sampleRequestFor []) sampleEnv (Or.inr rfl)⟩

/-! ## The order a placement was to create -/

/-- C12, the code at the failing input: the scenario of the specification. Its single line
passes the checks of the loop and its two pieces are reserved, the loop runs through the cart,
and yet no order is added: the handler answers with status 500 and the order collection is as
empty as before. -/
theorem passing_lines_without_order :
    sampleRequest.items = some [{ productId := P1, quantity := 2, extra := [] }] ∧
    (∃ (sub : ℚ) (items : List OrderItem),
      placeLoop [{ productId := P1, quantity := 2, extra := [] }] sampleState.products 0 [] =
        (.completed sub items, placedState.products)) ∧
    (postOrder sampleState sampleRequest sampleEnv).1.status = 500 ∧
    (postOrder sampleState sampleRequest sampleEnv).2.orders = sampleState.orders ∧
    sampleState.orders = [] := by
  refine ⟨rfl, ⟨20, sampleOrder.items, sample_loop⟩, ?_, ?_, rfl⟩ <;> decide

/-- C15, the code at the failing input: the scenario of the specification. The handler hands
`Order.create` a document with the history of one entry, pending with the note
`Order placed`; the schema rejects the document, so no order with status pending, and no order
at all, is stored. -/
theorem pending_order_never_stored :
    (placementFields sampleRequest sampleEnv 20 sampleOrder.items).statusHistory =
      [{ status := "pending", timestamp := sampleEnv.now, note := some "Order placed",
         updatedBy := none }] ∧
    Order.create sampleState.orders
        (placementFields sampleRequest sampleEnv 20 sampleOrder.items) sampleEnv =
      (.error "Order validation failed", sampleState.orders) ∧
    (postOrder sampleState sampleRequest sampleEnv).2.orders.map
      (fun o => (o.status, o.statusHistory)) = [] := by
  refine ⟨rfl, Order.create_rejects _ _ _, ?_⟩
  decide

/-- C16, the code at the failing input: the scenario of the specification. The loop collects
one item for the one line of the cart, with the identifier, the name and the price of P1 and
the quantity of the line, but the order that was to hold the items is not stored: the order
collection is empty afterwards. -/
theorem collected_items_never_stored :
    (placeLoop [{ productId := P1, quantity := 2, extra := [] }] sampleState.products 0 []).1 =
      .completed 20
        [{ product := P1, name := "Mug", price := 10, quantity := 2, image := "",
           icon := "fas fa-box" }] ∧
    (postOrder sampleState sampleRequest sampleEnv).2.orders.map (fun o => o.items) = [] := by
  constructor
  · show (placeLoop _ sampleCatalog 0 []).1 = _
    rw [sample_loop]
    rfl
  · decide

/-! ## Frame properties of the status operations -/

theorem Order.afterUpdate_snapshot (o : Order) (newStatus note : String)
    (updatedBy : Option ObjectId) (env : Env) :
    (o.afterUpdate newStatus note updatedBy env).snapshot = o.snapshot := rfl

theorem Order.withTracking_snapshot (o : Order) (req : StatusRequest) :
    (o.withTracking req).snapshot = o.snapshot := by
  unfold Order.withTracking
  split_ifs <;> rfl

/-- Replacing the order stored at one position by an order with the same snapshot keeps the
snapshot of the order stored at every position. -/
theorem set_keeps_snapshot (orders : List Order) (id j : Nat) (oid x o : Order)
    (hid : orders[id]? = some oid) (hx : x.snapshot = oid.snapshot)
    (ho : orders[j]? = some o) :
    ∃ o1, (orders.set id x)[j]? = some o1 ∧ o1.snapshot = o.snapshot := by
  by_cases e : id = j
  · subst e
    have hlt : id < orders.length := (List.getElem?_eq_some.mp ho).1
    rw [hid] at ho
    cases ho
    exact ⟨x, List.getElem?_set_self hlt, hx⟩
  · exact ⟨o, by rw [List.getElem?_set_ne e]; exact ho, rfl⟩

/-- The method `updateStatus` on the document loaded from position `id` keeps the snapshot of
the order stored at every position. -/
theorem Order.updateStatus_keeps_snapshot (orders : List Order) (id j : Nat) (oid o : Order)
    (hid : orders[id]? = some oid) (ho : orders[j]? = some o) (newStatus note : String)
    (updatedBy : Option ObjectId) (env : Env) :
    ∃ o1, (Order.updateStatus orders ⟨id, oid, false, false⟩ newStatus note updatedBy env).2[j]?
        = some o1 ∧ o1.snapshot = o.snapshot := by
  by_cases hs : newStatus ∈ statusEnum
  · rw [Order.updateStatus_ok orders id oid newStatus note updatedBy env hs]
    exact set_keeps_snapshot orders id j oid _ o hid (Order.afterUpdate_snapshot _ _ _ _ _) ho
  · rw [Order.updateStatus_invalid orders id oid newStatus note updatedBy env hs]
    exact ⟨o, ho, rfl⟩

/-- The status handler for an identifier that matches no order. -/
theorem putStatus_of_missing (st : State) (id : Nat) (req : StatusRequest) (env : Env)
    (ho : st.orders[id]? = none) :
    putStatus st id req env = (⟨404, .error "Order not found"⟩, st) := by
  simp only [putStatus, Order.findById_of_none _ _ ho]

/-- The cancellation handler for an identifier that matches no order. -/
theorem putCancel_of_missing (st : State) (id : Nat) (reason : Option String) (env : Env)
    (ho : st.orders[id]? = none) :
    putCancel st id reason env = (⟨404, .error "Order not found"⟩, st) := by
  simp only [putCancel, Order.findById_of_none _ _ ho]

/-- C17: the snapshot of a stored order, its items with product, name, price and quantity, its
subtotal, tax, shipping cost and total, is the same after `updateStatus` on any stored order,
after the status handler and the cancellation handler for any identifier, after any placement,
and whatever catalog replaces the present one (the order stores copies, not references). -/
theorem order_snapshot_immune (st : State) (j : Nat) (o : Order) (env : Env)
    (ho : st.orders[j]? = some o) :
    (∀ (id : Nat) (d : OrderDoc) (newStatus note : String) (updatedBy : Option ObjectId),
      Order.findById st.orders id = some d →
      ∃ o1, (Order.updateStatus st.orders d newStatus note updatedBy env).2[j]? = some o1 ∧
        o1.snapshot = o.snapshot) ∧
    (∀ (id : Nat) (req : StatusRequest),
      ∃ o1, (putStatus st id req env).2.orders[j]? = some o1 ∧ o1.snapshot = o.snapshot) ∧
    (∀ (id : Nat) (reason : Option String),
      ∃ o1, (putCancel st id reason env).2.orders[j]? = some o1 ∧ o1.snapshot = o.snapshot) ∧
    (∀ req : OrderRequest,
      ∃ o1, (postOrder st req env).2.orders[j]? = some o1 ∧ o1.snapshot = o.snapshot) ∧
    (∀ cat : Catalog,
      ∃ o1, ({ st with products := cat } : State).orders[j]? = some o1 ∧
        o1.snapshot = o.snapshot) := by
  refine ⟨?_, ?_, ?_, ?_, fun _ => ⟨o, ho, rfl⟩⟩
  · intro id d newStatus note updatedBy hd
    cases hid : st.orders[id]? with
    | none => rw [Order.findById_of_none _ _ hid] at hd; cases hd
    | some oid =>
      rw [Order.findById_of_getElem? _ _ _ hid] at hd
      cases hd
      exact Order.updateStatus_keeps_snapshot st.orders id j oid o hid ho _ _ _ env
  · intro id req
    cases hid : st.orders[id]? with
    | none => rw [putStatus_of_missing st id req env hid]; exact ⟨o, ho, rfl⟩
    | some oid =>
      by_cases hs : req.status ∈ statusEnum
      · rw [putStatus_of_valid st id oid req env hid hs]
        refine set_keeps_snapshot st.orders id j oid _ o hid ?_ ho
        rw [Order.afterUpdate_snapshot, Order.withTracking_snapshot]
      · rw [putStatus_of_invalid st id oid req env hid hs]; exact ⟨o, ho, rfl⟩
  · intro id reason
    cases hid : st.orders[id]? with
    | none => rw [putCancel_of_missing st id reason env hid]; exact ⟨o, ho, rfl⟩
    | some oid =>
      by_cases hc : oid.canBeCancelled = true
      · rw [putCancel_of_cancellable st id oid reason env hid hc]
        exact set_keeps_snapshot st.orders id j oid _ o hid
          (Order.afterUpdate_snapshot _ _ _ _ _) ho
      · rw [putCancel_of_not_cancellable st id oid reason env hid (by simpa using hc)]
        exact ⟨o, ho, rfl⟩
  · intro req
    exact ⟨o, by rw [(postOrder_orders st req env).1]; exact ho, rfl⟩

/-- Witness of C17: the stored sample order keeps its snapshot when it is updated, cancelled
and when the scenario is placed once more. -/
theorem order_snapshot_immune_witness :
    placedState.orders[0]? = some sampleOrder ∧
    (∃ o1, (putStatus placedState 0 ⟨"shipped", none, some "TRK1", some "UPS"⟩
        sampleEnv).2.orders[0]? = some o1 ∧ o1.snapshot = sampleOrder.snapshot) ∧
    (∃ o1, (putCancel placedState 0 none sampleEnv).2.orders[0]? = some o1 ∧
        o1.snapshot = sampleOrder.snapshot) ∧
    (∃ o1, (postOrder placedState sampleRequest sampleEnv).2.orders[0]? = some o1 ∧
        o1.snapshot = sampleOrder.snapshot) :=
  ⟨rfl,
   (order_snapshot_immune placedState 0 sampleOrder sampleEnv rfl).2.1 0
     ⟨"shipped", none, some "TRK1", some "UPS"⟩,
   (order_snapshot_immune placedState 0 sampleOrder sampleEnv rfl).2.2.1 0 none,
   (order_snapshot_immune placedState 0 sampleOrder sampleEnv rfl).2.2.2.1 sampleRequest⟩

/-- C18: after `updateStatus` on the document loaded from the store, the stored order has
`deliveredAt` set to the time of the call when the new status is delivered and left as it was
for every other new status, and `trackingNumber` and `carrier` are as they were. -/
theorem updateStatus_sets_deliveredAt (orders : List Order) (id : Nat) (o : Order)
    (newStatus note : String) (updatedBy : Option ObjectId) (env : Env)
    (ho : orders[id]? = some o) :
    ∃ d : OrderDoc, Order.findById orders id = some d ∧
      ∃ o1, (Order.updateStatus orders d newStatus note updatedBy env).2[id]? = some o1 ∧
        (newStatus = "delivered" → o1.deliveredAt = some env.now) ∧
        (newStatus ≠ "delivered" → o1.deliveredAt = o.deliveredAt) ∧
        o1.trackingNumber = o.trackingNumber ∧ o1.carrier = o.carrier := by
  have hlt : id < orders.length := (List.getElem?_eq_some.mp ho).1
  refine ⟨_, Order.findById_of_getElem? orders id o ho, ?_⟩
  by_cases hs : newStatus ∈ statusEnum
  · rw [Order.updateStatus_ok orders id o newStatus note updatedBy env hs]
    refine ⟨_, List.getElem?_set_self hlt, ?_, ?_, rfl, rfl⟩
    · intro h; simp [Order.afterUpdate, h]
    · intro h; simp [Order.afterUpdate, h]
  · rw [Order.updateStatus_invalid orders id o newStatus note updatedBy env hs]
    refine ⟨o, ho, ?_, fun _ => rfl, rfl, rfl⟩
    intro h
    subst h
    exact absurd (by decide) hs

/-- Witness of C18: the stored sample order, never delivered, is updated to delivered and to
shipped. -/
theorem updateStatus_sets_deliveredAt_witness :
    sampleOrder.deliveredAt = none ∧
    (∃ d : OrderDoc, Order.findById [sampleOrder] 0 = some d ∧
      ∃ o1, (Order.updateStatus [sampleOrder] d "delivered" "" none sampleEnv).2[0]? = some o1 ∧
        o1.deliveredAt = some sampleEnv.now) ∧
    (∃ d : OrderDoc, Order.findById [sampleOrder] 0 = some d ∧
      ∃ o1, (Order.updateStatus [sampleOrder] d "shipped" "" none sampleEnv).2[0]? = some o1 ∧
        o1.deliveredAt = none) := by
  refine ⟨rfl, ?_, ?_⟩
  · obtain ⟨d, hd, o1, h1, h2, _⟩ :=
      updateStatus_sets_deliveredAt [sampleOrder] 0 sampleOrder "delivered" "" none sampleEnv rfl
    exact ⟨d, hd, o1, h1, h2 rfl⟩
  · obtain ⟨d, hd, o1, h1, _, h3, _⟩ :=
      updateStatus_sets_deliveredAt [sampleOrder] 0 sampleOrder "shipped" "" none sampleEnv rfl
    exact ⟨d, hd, o1, h1, h3 (by decide)⟩

/-! ## Cancellation with a missing product, and `calculateTotals` -/

/-- An `$inc` aimed at an identifier the catalog does not hold changes nothing. -/
theorem Product.findByIdAndUpdateIncStock_missing (cat : Catalog) (id : ObjectId) (n : Int)
    (h : cat id = none) : Product.findByIdAndUpdateIncStock cat id n = cat := by
  simp only [Product.findByIdAndUpdateIncStock, h]

/-- C19: cancelling a stored order whose status is pending, confirmed or processing is answered
with the success message whether or not its items reference products the catalog holds. For
every item whose product the catalog does not hold, the `$inc` for that item changes nothing
and the product is still absent afterwards; the order is stored with status cancelled, and the
stock of every stored product is its stock before plus the sum of the quantities of the items
that reference it. -/
theorem cancel_with_missing_product (st : State) (id : Nat) (o : Order)
    (reason : Option String) (env : Env) (ho : st.orders[id]? = some o)
    (hs : o.status = "pending" ∨ o.status = "confirmed" ∨ o.status = "processing") :
    (putCancel st id reason env).1 = ⟨200, .message "Order cancelled successfully"⟩ ∧
    (∃ o1, (putCancel st id reason env).2.orders[id]? = some o1 ∧ o1.status = "cancelled") ∧
    (∀ i ∈ o.items, st.products i.product = none →
      (∀ cat : Catalog, cat i.product = none →
        Product.findByIdAndUpdateIncStock cat i.product i.quantity = cat) ∧
      (putCancel st id reason env).2.products i.product = none) ∧
    (∀ pid p, st.products pid = some p →
      ∃ p1, (putCancel st id reason env).2.products pid = some p1 ∧
        p1.stock = p.stock + itemsQty o.items pid) := by
  have hlt : id < st.orders.length := (List.getElem?_eq_some.mp ho).1
  rw [putCancel_of_cancellable st id o reason env ho ((Order.canBeCancelled_iff o).mpr hs)]
  refine ⟨rfl, ⟨_, List.getElem?_set_self hlt, rfl⟩, ?_, ?_⟩
  · intro i _ hmiss
    refine ⟨fun cat h => Product.findByIdAndUpdateIncStock_missing cat _ _ h, ?_⟩
    have h := restoreStock_stock o.items st.products i.product
    rw [hmiss] at h
    cases h1 : restoreStock o.items st.products i.product with
    | none => exact h1
    | some p1 => rw [h1] at h; simp at h
  · intro pid p hp
    have h := restoreStock_stock o.items st.products pid
    rw [hp] at h
    cases h1 : restoreStock o.items st.products pid with
    | none => rw [h1] at h; simp at h
    | some p1 =>
      rw [h1] at h
      exact ⟨p1, h1, by simpa using h⟩

/-- Witness of C19: the stored order has an item for P9, which the catalog does not hold; the
cancellation succeeds, P9 stays absent and P1 goes from three in stock back to five. -/
theorem cancel_with_missing_product_witness :
    orphanState.products P9 = none ∧
    (putCancel orphanState 0 none sampleEnv).1 =
      ⟨200, .message "Order cancelled successfully"⟩ ∧
    (∃ o1, (putCancel orphanState 0 none sampleEnv).2.orders[0]? = some o1 ∧
      o1.status = "cancelled") ∧
    (putCancel orphanState 0 none sampleEnv).2.products P9 = none ∧
    ∃ p1, (putCancel orphanState 0 none sampleEnv).2.products P1 = some p1 ∧
      p1.stock = 5 := by
  obtain ⟨h1, h2, h3, h4⟩ :=
    cancel_with_missing_product orphanState 0 orphanOrder none sampleEnv rfl (Or.inl rfl)
  have h9 := (h3
    { product := P9, name := "Lamp", price := 30, quantity := 1, image := "",
      icon := "fas fa-box" }
    (by simp [orphanOrder]) rfl).2
  obtain ⟨p1, hp1, hstock⟩ := h4 P1 (sampleProduct.reduced 2) rfl
  exact ⟨rfl, h1, h2, h9, p1, hp1, by rw [hstock]; decide⟩

/-- C20, counterexample: on the stored sample order, two pieces priced 10.00, tax the double
1.6, shipping cost the double 5.99 and no discount, `calculateTotals` sets the subtotal to 20
and the total to the double printed 27.590000000000003, which is not the sum of subtotal, tax
and shipping cost less the discount; and on an order of three pieces priced the double 0.1 it
sets the subtotal to the double printed 0.30000000000000004, which is not three times the
price. -/
theorem calculateTotals_not_exact :
    sampleOrder.calculateTotals.subtotal = 20 ∧
    sampleOrder.calculateTotals.total = 970736825930875 / 35184372088832 ∧
    sampleOrder.calculateTotals.total ≠
      sampleOrder.calculateTotals.subtotal + sampleOrder.tax + sampleOrder.shippingCost -
        sampleOrder.discount.amount ∧
    dimeOrder.calculateTotals.subtotal = 1351079888211149 / 4503599627370496 ∧
    dimeOrder.calculateTotals.subtotal ≠ itemsTotal dimeOrder.items := by
  have hsub : sampleOrder.calculateTotals.subtotal = 20 := by
    show jsAdd 0 (jsMul 10 ((2 : Int) : ℚ)) = 20
    simp only [jsAdd, jsMul]
    norm_num [double_20]
  have htot : sampleOrder.calculateTotals.total = 970736825930875 / 35184372088832 := by
    show jsSub (jsAdd (jsAdd sampleOrder.calculateTotals.subtotal (roundDouble 1.6))
      (roundDouble 5.99)) 0 = _
    rw [hsub, double_1_6, double_5_99, double_20_plus_tax, double_total, jsSub, sub_zero,
      double_total_idem]
  have hdime : dimeOrder.calculateTotals.subtotal = 1351079888211149 / 4503599627370496 := by
    show jsAdd 0 (jsMul (roundDouble 0.1) ((3 : Int) : ℚ)) = _
    have h3 : (((3 : Int) : ℚ)) = 3 := by norm_num
    rw [double_0_1, h3, double_0_1_times_3, jsAdd, zero_add]
    exact double_0_3_idem
  refine ⟨hsub, htot, ?_, hdime, ?_⟩
  · rw [htot, hsub]
    show _ ≠ 20 + roundDouble 1.6 + roundDouble 5.99 - 0
    rw [double_1_6, double_5_99]
    norm_num
  · rw [hdime]
    show _ ≠ ([roundDouble 0.1 * ((3 : Int) : ℚ)] : List ℚ).sum
    rw [double_0_1]
    norm_num

/-- C20, amended: `calculateTotals` sets the subtotal to the sum over the items of price times
quantity and the total to subtotal plus tax plus shipping cost minus the discount amount, each
product, sum and difference rounded to the nearest double, the sums taken from left to right;
it leaves the items, the tax, the shipping cost and the discount as they were, and applying it
twice gives what applying it once gives. -/
theorem calculateTotals_spec (o : Order) :
    o.calculateTotals.subtotal = itemsTotalDouble 0 o.items ∧
    o.calculateTotals.total =
      jsSub (jsAdd (jsAdd o.calculateTotals.subtotal o.tax) o.shippingCost) o.discount.amount ∧
    o.calculateTotals.items = o.items ∧
    o.calculateTotals.tax = o.tax ∧
    o.calculateTotals.shippingCost = o.shippingCost ∧
    o.calculateTotals.discount = o.discount ∧
    o.calculateTotals.calculateTotals = o.calculateTotals :=
  ⟨rfl, rfl, rfl, rfl, rfl, rfl, rfl⟩

/-! ## Missing orders, unreachable errors and unrestricted transitions -/

/-- The cancellation handler and the status handler on a route parameter that is a
well-formed identifier: the handlers for the position it denotes. -/
theorem route_of_cast (st : State) (param : String) (id : ObjectId) (env : Env)
    (hid : castObjectId param = some id) :
    (∀ reason : Option String,
      putCancelRoute st param reason env = putCancel st (orderPosition id) reason env) ∧
    (∀ req : StatusRequest,
      putStatusRoute st param req env = putStatus st (orderPosition id) req env) := by
  constructor
  · intro reason
    simp only [putCancelRoute, hid]
  · intro req
    simp only [putStatusRoute, hid]

/-- C25, counterexample: the route parameter `not-an-id` is no well-formed identifier, so it
matches no order; the cancellation handler and the status handler answer it with status 500,
not 404. The database stays as it was. -/
theorem malformed_order_id_not_404 :
    castObjectId "not-an-id" = none ∧
    putCancelRoute placedState "not-an-id" (some "changed my mind") sampleEnv =
      (⟨500, .error "Failed to cancel order"⟩, placedState) ∧
    putStatusRoute placedState "not-an-id" ⟨"shipped", none, some "TRK1", some "UPS"⟩
        sampleEnv =
      (⟨500, .error "Failed to update order status"⟩, placedState) :=
  ⟨by decide, rfl, rfl⟩

/-- C25, amended: for a route parameter that matches no stored order, the cancellation handler
and the status handler leave the database, every product and every order, as it was; they
answer with status 404 and `Order not found` when the parameter is a well-formed identifier,
and with status 500 when it is not. -/
theorem missing_order_no_effect (st : State) (param : String) (env : Env) :
    (∀ id, castObjectId param = some id → st.orders[orderPosition id]? = none →
      (∀ reason : Option String,
        putCancelRoute st param reason env = (⟨404, .error "Order not found"⟩, st)) ∧
      (∀ req : StatusRequest,
        putStatusRoute st param req env = (⟨404, .error "Order not found"⟩, st))) ∧
    (castObjectId param = none →
      (∀ reason : Option String,
        putCancelRoute st param reason env = (⟨500, .error "Failed to cancel order"⟩, st)) ∧
      (∀ req : StatusRequest,
        putStatusRoute st param req env =
          (⟨500, .error "Failed to update order status"⟩, st))) := by
  constructor
  · intro id hid h
    obtain ⟨hc, hs⟩ := route_of_cast st param id env hid
    constructor
    · intro reason
      rw [hc, putCancel_of_missing st _ reason env h]
    · intro req
      rw [hs, putStatus_of_missing st _ req env h]
  · intro hid
    constructor
    · intro reason
      simp only [putCancelRoute, hid]
    · intro req
      simp only [putStatusRoute, hid]

/-- Witness of C25 as amended: the stored sample order is at position 0; the identifier that
denotes position 7 matches nothing, and `not-an-id` is no identifier. -/
theorem missing_order_no_effect_witness :
    castObjectId "000000000000000000000007" = some "000000000000000000000007" ∧
    placedState.orders[orderPosition "000000000000000000000007"]? = none ∧
    putCancelRoute placedState "000000000000000000000007" (some "changed my mind") sampleEnv =
      (⟨404, .error "Order not found"⟩, placedState) ∧
    putStatusRoute placedState "000000000000000000000007"
        ⟨"shipped", none, some "TRK1", some "UPS"⟩ sampleEnv =
      (⟨404, .error "Order not found"⟩, placedState) ∧
    castObjectId "not-an-id" = none ∧
    putCancelRoute placedState "not-an-id" none sampleEnv =
      (⟨500, .error "Failed to cancel order"⟩, placedState) :=
  ⟨by decide, by decide,
   ((missing_order_no_effect placedState "000000000000000000000007" sampleEnv).1
     "000000000000000000000007" (by decide) (by decide)).1 (some "changed my mind"),
   ((missing_order_no_effect placedState "000000000000000000000007" sampleEnv).1
     "000000000000000000000007" (by decide) (by decide)).2
     ⟨"shipped", none, some "TRK1", some "UPS"⟩,
   by decide,
   ((missing_order_no_effect placedState "not-an-id" sampleEnv).2 (by decide)).1 none⟩

/-- C30: inside the placement loop the `Insufficient stock` branch of `reduceStock` is never
taken. A call of `reduceStock` on a product whose stock is not below the quantity succeeds; the
loop makes the call only after that check, so the only exception it can end with is the failed
cast of `findById` on a line whose `productId` is not a well-formed identifier, and it ends
with no exception when every `productId` is well-formed; and the placement handler never
answers with the message of that branch. -/
theorem reduceStock_error_unreachable :
    (∀ (cat : Catalog) (id : ObjectId) (p : Product) (q : Int), ¬ p.stock < q →
      ∃ p1, Product.reduceStock cat id p q = (.ok p1, Function.update cat id (some p1))) ∧
    (∀ (lines : List CartLine) (cat : Catalog) (sub : ℚ) (items : List OrderItem) (e : String)
      (cat1 : Catalog), placeLoop lines cat sub items = (.thrown e, cat1) →
      e = castErrorMessage ∧ e ≠ "Insufficient stock" ∧
        ∃ l ∈ lines, castObjectId l.productId = none) ∧
    (∀ (lines : List CartLine) (cat : Catalog) (sub : ℚ) (items : List OrderItem) (e : String)
      (cat1 : Catalog), (∀ l ∈ lines, castObjectId l.productId ≠ none) →
      placeLoop lines cat sub items ≠ (.thrown e, cat1)) ∧
    (∀ (st : State) (req : OrderRequest) (env : Env),
      (postOrder st req env).1 ≠ ⟨500, .error "Insufficient stock"⟩) := by
  refine ⟨fun cat id p q h => ⟨_, Product.reduceStock_of_le cat id p q (not_lt.mp h)⟩,
    ?_, ?_, ?_⟩
  · intro lines cat sub items e cat1 h
    obtain ⟨he, hl⟩ := placeLoop_thrown lines cat sub items e cat1 h
    exact ⟨he, by rw [he]; decide, hl⟩
  · intro lines cat sub items e cat1 hwf h
    obtain ⟨_, l, hl, hc⟩ := placeLoop_thrown lines cat sub items e cat1 h
    exact hwf l hl hc
  · intro st req env
    cases hl : req.items with
    | none => simp [postOrder, hl]
    | some lines =>
      by_cases hne : lines = []
      · subst hne; simp [postOrder, hl]
      · rcases hloop : placeLoop lines st.products 0 [] with ⟨out, products⟩
        cases out with
        | responded r =>
          rw [postOrder_of_responded st req env lines hl r products hloop]
          intro h
          have h400 := placeLoop_responded_status _ _ _ _ _ _ hloop
          have hr : r = ⟨500, .error "Insufficient stock"⟩ := h
          rw [hr] at h400
          simp at h400
        | thrown e =>
          rw [postOrder_of_thrown st req env lines hl e products hloop]
          show (⟨500, .error castErrorMessage⟩ : Response) ≠ _
          decide
        | completed sub items =>
          rw [postOrder_of_completed st req env lines hl hne sub items products hloop]
          show (⟨500, .error "Order validation failed"⟩ : Response) ≠ _
          decide

/-- Witness of C30: five pieces in stock and a call for two. -/
theorem reduceStock_error_unreachable_witness :
    ∃ p1, Product.reduceStock sampleCatalog P1 sampleProduct 2 =
      (.ok p1, Function.update sampleCatalog P1 (some p1)) :=
  reduceStock_error_unreachable.1 sampleCatalog P1 sampleProduct 2 (by decide)

/-- C23, counterexample: the only stored order is cancelled; the status handler asked for
pending answers with status 200 and the order is stored as pending. -/
theorem cancelled_order_reopened :
    cancelledState.orders.map (fun o => o.status) = ["cancelled"] ∧
    (putStatus cancelledState 0 ⟨"pending", none, none, none⟩ sampleEnv).1.status = 200 ∧
    (putStatus cancelledState 0 ⟨"pending", none, none, none⟩ sampleEnv).2.orders.map
      (fun o => o.status) = ["pending"] := by
  rw [putStatus_of_valid cancelledState 0 cancelledOrder _ sampleEnv rfl (by decide)]
  exact ⟨rfl, rfl, rfl⟩

/-- C23, amended: `updateStatus` and the status handler refuse no transition. For every stored
order, whatever its status, and every new status of the schema, the handler answers with status
200 and the order is stored with the new status, and so does `updateStatus` on the document
loaded from the store. -/
theorem status_update_unrestricted (st : State) (id : Nat) (o : Order) (req : StatusRequest)
    (env : Env) (ho : st.orders[id]? = some o) (hs : req.status ∈ statusEnum) :
    (putStatus st id req env).1.status = 200 ∧
    (∃ o1, (putStatus st id req env).2.orders[id]? = some o1 ∧ o1.status = req.status) ∧
    (∀ (note : String) (updatedBy : Option ObjectId),
      ∃ d : OrderDoc, Order.findById st.orders id = some d ∧
        ∃ o1, (Order.updateStatus st.orders d req.status note updatedBy env).2[id]? = some o1 ∧
          o1.status = req.status) := by
  have hlt : id < st.orders.length := (List.getElem?_eq_some.mp ho).1
  refine ⟨?_, ?_, ?_⟩
  · rw [putStatus_of_valid st id o req env ho hs]
  · rw [putStatus_of_valid st id o req env ho hs]
    exact ⟨_, List.getElem?_set_self hlt, rfl⟩
  · intro note updatedBy
    refine ⟨_, Order.findById_of_getElem? st.orders id o ho, ?_⟩
    rw [Order.updateStatus_ok st.orders id o req.status note updatedBy env hs]
    exact ⟨_, List.getElem?_set_self hlt, rfl⟩

/-- Witness of C23 as amended: a delivered order is moved back to processing. -/
theorem status_update_unrestricted_witness :
    (putStatus shippedState 0 ⟨"delivered", none, none, none⟩ sampleEnv).1.status = 200 ∧
    (∃ o1, (putStatus shippedState 0 ⟨"delivered", none, none, none⟩
        sampleEnv).2.orders[0]? = some o1 ∧ o1.status = "delivered") ∧
    (∃ o1, (putStatus
        (putStatus shippedState 0 ⟨"delivered", none, none, none⟩ sampleEnv).2 0
        ⟨"processing", none, none, none⟩ sampleEnv).2.orders[0]? = some o1 ∧
      o1.status = "processing") := by
  obtain ⟨h1, ⟨o1, ho1, hs1⟩, _⟩ := status_update_unrestricted shippedState 0 shippedOrder
    ⟨"delivered", none, none, none⟩ sampleEnv rfl (by decide)
  obtain ⟨_, h2, _⟩ := status_update_unrestricted
    (putStatus shippedState 0 ⟨"delivered", none, none, none⟩ sampleEnv).2 0 o1
    ⟨"processing", none, none, none⟩ sampleEnv ho1 (by decide)
  exact ⟨h1, ⟨o1, ho1, hs1⟩, h2⟩

/-! ## What an answer depends on -/

/-- C24: the tracking answer shows the order number, the status, the history, the tracking
number, the carrier, the estimated delivery and, of the shipping address, the city and the
state only. Two stored orders that agree on these yield the same answer, whatever the rest of
their shipping addresses, their customer emails, items and amounts. -/
theorem tracking_shows_city_state_only (st1 st2 : State) (n : String) (o1 o2 : Order)
    (a1 a2 : Address)
    (h1 : st1.orders.find? (fun o => o.orderNumber = n) = some o1)
    (h2 : st2.orders.find? (fun o => o.orderNumber = n) = some o2)
    (ha1 : o1.shippingAddress = some a1) (ha2 : o2.shippingAddress = some a2)
    (hnum : o1.orderNumber = o2.orderNumber) (hstatus : o1.status = o2.status)
    (hhist : o1.statusHistory = o2.statusHistory)
    (htrack : o1.trackingNumber = o2.trackingNumber) (hcarrier : o1.carrier = o2.carrier)
    (hest : o1.estimatedDelivery = o2.estimatedDelivery)
    (hcity : a1.city = a2.city) (hstate : a1.state = a2.state) :
    getTrack st1 n = getTrack st2 n ∧
    getTrack st1 n =
      ⟨200, .tracking o1.orderNumber o1.status o1.statusHistory o1.trackingNumber o1.carrier
        o1.estimatedDelivery a1.city a1.state⟩ := by
  simp only [getTrack, h1, h2, ha1, ha2, hnum, hstatus, hhist, htrack, hcarrier, hest, hcity,
    hstate, and_self]

/-- Witness of C24: the sample order and an order of another customer with another street,
other items and other amounts are tracked with the same answer. -/
theorem tracking_shows_city_state_only_witness :
    otherCustomerOrder.customerEmail ≠ sampleOrder.customerEmail ∧
    otherCustomerOrder.items ≠ sampleOrder.items ∧
    getTrack ⟨sampleCatalog, [sampleOrder]⟩ "ORD-20240307-0421" =
      getTrack ⟨sampleCatalog, [otherCustomerOrder]⟩ "ORD-20240307-0421" :=
  ⟨by decide, by decide,
   (tracking_shows_city_state_only ⟨sampleCatalog, [sampleOrder]⟩
     ⟨sampleCatalog, [otherCustomerOrder]⟩ "ORD-20240307-0421" sampleOrder otherCustomerOrder
     { sampleAddress with country := some "USA" }
     { fullName := "Bob Stone", phone := "555-0199", street := "9 Oak Ave",
       city := "Springfield", state := "IL", zipCode := "62799", country := some "USA" }
     rfl rfl rfl rfl rfl rfl rfl rfl rfl rfl rfl rfl).1⟩

/-! ## What a placement depends on -/

/-- The placement loop reads the product identifier and the quantity of a line and nothing
else: two carts with the same sequence of these run alike. -/
theorem placeLoop_congr (lines1 : List CartLine) :
    ∀ (lines2 : List CartLine) (cat : Catalog) (sub : ℚ) (items : List OrderItem),
      lines1.map (fun l => (l.productId, l.quantity)) =
        lines2.map (fun l => (l.productId, l.quantity)) →
      placeLoop lines1 cat sub items = placeLoop lines2 cat sub items := by
  induction lines1 with
  | nil =>
    intro lines2 cat sub items h
    cases lines2 with
    | nil => rfl
    | cons l2 rest2 => simp at h
  | cons l1 rest1 ih =>
    intro lines2 cat sub items h
    cases lines2 with
    | nil => simp at h
    | cons l2 rest2 =>
      simp only [List.map_cons, List.cons.injEq, Prod.mk.injEq] at h
      obtain ⟨⟨hpid, hq⟩, hrest⟩ := h
      cases hid : castObjectId l1.productId with
      | none =>
        rw [placeLoop_cons_malformed l1 rest1 cat sub items hid,
          placeLoop_cons_malformed l2 rest2 cat sub items (hpid ▸ hid)]
      | some id =>
        cases hp : cat id with
        | none =>
          rw [placeLoop_cons_missing l1 rest1 cat sub items id hid hp,
            placeLoop_cons_missing l2 rest2 cat sub items id (hpid ▸ hid) hp, hpid]
        | some p =>
          by_cases hle : l1.quantity ≤ p.stock
          · rw [placeLoop_cons_ok l1 rest1 cat sub items id p hid hp hle,
              placeLoop_cons_ok l2 rest2 cat sub items id p (hpid ▸ hid) hp (hq ▸ hle)]
            have hs : snapshotOf id l1 p = snapshotOf id l2 p := by simp only [snapshotOf, hq]
            rw [hs, ← hq]
            exact ih rest2 _ _ _ hrest
          · rw [placeLoop_cons_short l1 rest1 cat sub items id p hid hp (not_le.mp hle),
              placeLoop_cons_short l2 rest2 cat sub items id p (hpid ▸ hid) hp
                (hq ▸ not_le.mp hle)]

/-- C21, the code at the failing input: the scenario of the specification and the same cart
sent by another client with a price on its line, a subtotal and a total in the body, and every
other property different. The two carts have the same product identifiers and quantities and
the two requests the same shipping method, both are answered with status 500, and neither
produces an order. -/
theorem tampered_and_plain_placement_refused :
    (sampleRequest.items.map fun ls => ls.map fun l => (l.productId, l.quantity)) =
      (tamperedRequest.items.map fun ls => ls.map fun l => (l.productId, l.quantity)) ∧
    sampleRequest.shippingMethod = tamperedRequest.shippingMethod ∧
    (postOrder sampleState sampleRequest sampleEnv).1 =
      ⟨500, .error "Order validation failed"⟩ ∧
    (postOrder sampleState tamperedRequest sampleEnv).1 =
      ⟨500, .error "Order validation failed"⟩ ∧
    (postOrder sampleState sampleRequest sampleEnv).2.orders = [] ∧
    (postOrder sampleState tamperedRequest sampleEnv).2.orders = [] := by
  refine ⟨by decide, rfl, ?_, ?_, ?_, ?_⟩ <;> decide

/-! ## Placing and cancelling -/

/-- C27, the code at the failing input: the scenario of the specification. The placement takes
P1 from five in stock to three and stores no order; the cancellation for the identifier the
order would have had finds nothing, is answered with status 404, and the stock of P1 stays at
three: the round trip cannot be made. -/
theorem reserved_stock_not_returned :
    (sampleState.products P1).map (fun p => p.stock) = some 5 ∧
    (postOrder sampleState sampleRequest sampleEnv).2.orders = [] ∧
    ((postOrder sampleState sampleRequest sampleEnv).2.products P1).map (fun p => p.stock) =
      some 3 ∧
    (putCancel (postOrder sampleState sampleRequest sampleEnv).2 sampleState.orders.length none
      sampleEnv).1 = ⟨404, .error "Order not found"⟩ ∧
    ((putCancel (postOrder sampleState sampleRequest sampleEnv).2 sampleState.orders.length
      none sampleEnv).2.products P1).map (fun p => p.stock) = some 3 := by
  refine ⟨rfl, ?_, ?_, ?_, ?_⟩ <;> decide

/-- The sum of the quantities of the lines that reference a product is not negative when no
quantity is. -/
theorem linesQty_nonneg (lines : List CartLine) (hq : ∀ l ∈ lines, 0 ≤ l.quantity)
    (pid : ObjectId) : 0 ≤ linesQty lines pid := by
  induction lines with
  | nil => simp [linesQty_nil]
  | cons l rest ih =>
    rw [linesQty_cons]
    have h1 := hq l (List.mem_cons_self _ _)
    have h2 := ih (fun l1 h => hq l1 (List.mem_cons_of_mem _ h))
    split_ifs <;> omega

/-- No line references the product: the sum of the quantities is zero. -/
theorem linesQty_of_unreferenced (lines : List CartLine) (pid : ObjectId)
    (h : ∀ l ∈ lines, castObjectId l.productId ≠ some pid) : linesQty lines pid = 0 := by
  induction lines with
  | nil => rfl
  | cons l rest ih =>
    rw [linesQty_cons, if_neg (h l (List.mem_cons_self _ _)),
      ih (fun l1 h1 => h l1 (List.mem_cons_of_mem _ h1))]
    rfl

/-- A cart the loop runs through asks of no product it references more than its stock. -/
theorem placeLoop_completed_fits (lines : List CartLine) :
    ∀ (cat : Catalog) (sub : ℚ) (items : List OrderItem) (sub1 : ℚ) (items1 : List OrderItem)
      (cat1 : Catalog),
      placeLoop lines cat sub items = (.completed sub1 items1, cat1) →
      ∀ pid p, cat pid = some p → (∃ l ∈ lines, castObjectId l.productId = some pid) →
        linesQty lines pid ≤ p.stock := by
  induction lines with
  | nil =>
    intro cat sub items sub1 items1 cat1 _ pid p _ href
    obtain ⟨l, hl, _⟩ := href
    simp at hl
  | cons l rest ih =>
    intro cat sub items sub1 items1 cat1 h pid p hp href
    cases hid : castObjectId l.productId with
    | none => rw [placeLoop_cons_malformed l rest cat sub items hid] at h; simp at h
    | some id =>
      cases hp0 : cat id with
      | none => rw [placeLoop_cons_missing l rest cat sub items id hid hp0] at h; simp at h
      | some p0 =>
        by_cases hq : l.quantity ≤ p0.stock
        · rw [placeLoop_cons_ok l rest cat sub items id p0 hid hp0 hq] at h
          rw [linesQty_cons, hid]
          by_cases e : id = pid
          · subst e
            rw [hp0] at hp
            cases hp
            rw [if_pos rfl]
            by_cases hr : ∃ l1 ∈ rest, castObjectId l1.productId = some id
            · have h1 := ih _ _ _ _ _ _ h id (p.reduced l.quantity)
                (Function.update_same _ _ _) hr
              simp only [Product.reduced] at h1
              omega
            · rw [linesQty_of_unreferenced rest id (fun l1 h1 h2 => hr ⟨l1, h1, h2⟩)]
              omega
          · obtain ⟨l1, hl1, hl1p⟩ := href
            have hr : ∃ l1 ∈ rest, castObjectId l1.productId = some pid := by
              rcases List.mem_cons.mp hl1 with rfl | hmem
              · rw [hid] at hl1p
                exact absurd (Option.some.inj hl1p) e
              · exact ⟨l1, hmem, hl1p⟩
            have h1 := ih _ _ _ _ _ _ h pid p
              (by rw [Function.update_noteq (fun h2 => e h2.symm)]; exact hp) hr
            rw [if_neg (fun h2 => e (Option.some.inj h2)), zero_add]
            exact h1
        · rw [placeLoop_cons_short l rest cat sub items id p0 hid hp0 (not_le.mp hq)] at h
          simp at h

/-- A cart whose lines reference stored products, with no negative quantity, and which asks of
no product it references more than its stock is run through by the loop. -/
theorem placeLoop_completes_of_fits (lines : List CartLine) :
    ∀ (cat : Catalog) (sub : ℚ) (items : List OrderItem),
      (∀ l ∈ lines, ∃ id p, castObjectId l.productId = some id ∧ cat id = some p) →
      (∀ l ∈ lines, 0 ≤ l.quantity) →
      (∀ pid p, cat pid = some p → (∃ l ∈ lines, castObjectId l.productId = some pid) →
        linesQty lines pid ≤ p.stock) →
      ∃ (sub1 : ℚ) (items1 : List OrderItem) (cat1 : Catalog),
        placeLoop lines cat sub items = (.completed sub1 items1, cat1) := by
  induction lines with
  | nil => intro cat sub items _ _ _; exact ⟨sub, items, cat, rfl⟩
  | cons l rest ih =>
    intro cat sub items hex hq hfit
    obtain ⟨id, p0, hid, hp0⟩ := hex l (List.mem_cons_self _ _)
    have hq0 := hq l (List.mem_cons_self _ _)
    have hqrest : ∀ l1 ∈ rest, 0 ≤ l1.quantity := fun l1 h => hq l1 (List.mem_cons_of_mem _ h)
    have hfit0 := hfit id p0 hp0 ⟨l, List.mem_cons_self _ _, hid⟩
    rw [linesQty_cons, if_pos hid] at hfit0
    have hnn := linesQty_nonneg rest hqrest id
    rw [placeLoop_cons_ok l rest cat sub items id p0 hid hp0 (by omega)]
    apply ih
    · intro l1 h1
      obtain ⟨id1, p1, hid1, hp1⟩ := hex l1 (List.mem_cons_of_mem _ h1)
      by_cases e : id1 = id
      · exact ⟨id1, p0.reduced l.quantity, hid1, by rw [e, Function.update_same]⟩
      · exact ⟨id1, p1, hid1, by rw [Function.update_noteq e]; exact hp1⟩
    · exact hqrest
    · intro pid p hp href
      obtain ⟨l1, hl1, hl1p⟩ := href
      by_cases e : pid = id
      · subst e
        rw [Function.update_same] at hp
        cases hp
        show linesQty rest pid ≤ p0.stock - l.quantity
        omega
      · rw [Function.update_noteq e] at hp
        have h1 := hfit pid p hp ⟨l1, List.mem_cons_of_mem _ hl1, hl1p⟩
        rw [linesQty_cons, hid, if_neg (fun h2 => e (Option.some.inj h2).symm), zero_add] at h1
        exact h1

/-- C26, the code at the failing input: the scenario of the specification. The cart is not
empty, its line references the stored product P1 with quantity 2, and the sum of the
quantities, 2, is at most the stock, 5; the loop runs through the cart, and yet the placement
does not succeed: it is answered with status 500. -/
theorem fitting_cart_not_placed :
    sampleRequest.items = some [{ productId := P1, quantity := 2, extra := [] }] ∧
    (sampleState.products P1).map (fun p => p.stock) = some 5 ∧
    linesQty [{ productId := P1, quantity := 2, extra := [] }] P1 = 2 ∧
    (∃ (sub : ℚ) (items : List OrderItem) (cat : Catalog),
      placeLoop [{ productId := P1, quantity := 2, extra := [] }] sampleState.products 0 [] =
        (.completed sub items, cat)) ∧
    (postOrder sampleState sampleRequest sampleEnv).1 =
      ⟨500, .error "Order validation failed"⟩ := by
  refine ⟨rfl, rfl, by decide, ?_, by decide⟩
  refine placeLoop_completes_of_fits _ sampleState.products 0 [] ?_ ?_ ?_
  · intro l hl
    simp only [List.mem_singleton] at hl
    subst hl
    exact ⟨P1, sampleProduct, by decide, rfl⟩
  · intro l hl
    simp only [List.mem_singleton] at hl
    subst hl
    decide
  · intro pid p hp href
    obtain ⟨l, hl, hlp⟩ := href
    simp only [List.mem_singleton] at hl
    subst hl
    have hpid : pid = P1 := by
      have h1 : castObjectId P1 = some P1 := by decide
      rw [show ({ productId := P1, quantity := 2, extra := [] } : CartLine).productId = P1
        from rfl, h1] at hlp
      exact (Option.some.inj hlp).symm
    subst hpid
    have hp1 : p = sampleProduct := by
      have h2 : sampleState.products P1 = some sampleProduct := rfl
      rw [h2] at hp
      exact (Option.some.inj hp).symm
    subst hp1
    decide

/-! ## Quantities below one and the flag `inStock` -/

/-- C28, the code at the failing input: five pieces of P1 in stock and a cart with the single
line P1 with quantity -2. The check `stock < quantity` passes, `reduceStock` stores 5 - (-2),
the order document is then rejected by the schema (the validator `min: 1` among others), and
the placement, answered with status 500, leaves seven pieces in stock and no order. -/
theorem negative_quantity_raises_stock :
    (sampleState.products P1).map (fun p => p.stock) = some 5 ∧
    (postOrder sampleState
      (sampleRequestFor [{ productId := P1, quantity := -2, extra := [] }]) sampleEnv).1 =
      ⟨500, .error "Order validation failed"⟩ ∧
    ((postOrder sampleState
      (sampleRequestFor [{ productId := P1, quantity := -2, extra := [] }])
      sampleEnv).2.products P1).map (fun p => p.stock) = some 7 ∧
    (postOrder sampleState
      (sampleRequestFor [{ productId := P1, quantity := -2, extra := [] }])
      sampleEnv).2.orders = [] := by
  refine ⟨rfl, ?_, ?_, ?_⟩ <;> decide

/-- One step of `reduceStock` keeps the flag `inStock` of every product in line with its
stock. -/
theorem inStockConsistent_update (cat : Catalog) (id : ObjectId) (p : Product) (q : Int)
    (h : inStockConsistent cat) :
    inStockConsistent (Function.update cat id (some (p.reduced q))) := by
  intro pid p1 hp1
  by_cases e : pid = id
  · subst e
    rw [Function.update_same] at hp1
    cases hp1
    rfl
  · rw [Function.update_noteq e] at hp1
    exact h pid p1 hp1

/-- The placement loop keeps the flag `inStock` of every product in line with its stock,
however it ends. -/
theorem placeLoop_keeps_inStock (lines : List CartLine) :
    ∀ (cat : Catalog) (sub : ℚ) (items : List OrderItem),
      inStockConsistent cat → inStockConsistent (placeLoop lines cat sub items).2 := by
  induction lines with
  | nil => intro cat sub items h; exact h
  | cons l rest ih =>
    intro cat sub items h
    cases hid : castObjectId l.productId with
    | none => rw [placeLoop_cons_malformed l rest cat sub items hid]; exact h
    | some id =>
      cases hp : cat id with
      | none => rw [placeLoop_cons_missing l rest cat sub items id hid hp]; exact h
      | some p =>
        by_cases hq : l.quantity ≤ p.stock
        · rw [placeLoop_cons_ok l rest cat sub items id p hid hp hq]
          exact ih _ _ _ (inStockConsistent_update cat _ p _ h)
        · rw [placeLoop_cons_short l rest cat sub items id p hid hp (not_le.mp hq)]; exact h

/-- The placement handler keeps the flag `inStock` of every product in line with its stock,
whatever its answer. -/
theorem postOrder_keeps_inStock (st : State) (req : OrderRequest) (env : Env)
    (h : inStockConsistent st.products) :
    inStockConsistent (postOrder st req env).2.products := by
  cases hl : req.items with
  | none => simp only [postOrder, hl]; exact h
  | some lines =>
    by_cases hne : lines = []
    · subst hne; simp only [postOrder, hl]; exact h
    · have hk := placeLoop_keeps_inStock lines st.products 0 [] h
      rcases hloop : placeLoop lines st.products 0 [] with ⟨out, products⟩
      rw [hloop] at hk
      cases out with
      | responded r =>
        rw [postOrder_of_responded st req env lines hl r products hloop]; exact hk
      | thrown e =>
        rw [postOrder_of_thrown st req env lines hl e products hloop]; exact hk
      | completed sub items =>
        rw [postOrder_of_completed st req env lines hl hne sub items products hloop]; exact hk

/-- C29, the code at the failing input: P1 is sold out with `inStock` false, so the flag of
every product is in line with its stock, and the stored pending order holds two pieces of P1.
The cancellation succeeds and adds the two pieces with `$inc`, which runs no hook: P1 is stored
with two pieces in stock and `inStock` still false. -/
theorem cancel_leaves_inStock_stale :
    inStockConsistent soldOutState.products ∧
    (putCancel soldOutState 0 none sampleEnv).1 =
      ⟨200, .message "Order cancelled successfully"⟩ ∧
    ((putCancel soldOutState 0 none sampleEnv).2.products P1).map
      (fun p => (p.stock, p.inStock)) = some (2, false) ∧
    ¬ inStockConsistent (putCancel soldOutState 0 none sampleEnv).2.products := by
  have hcons : inStockConsistent soldOutState.products := by
    intro pid p hp
    simp only [soldOutState] at hp
    split_ifs at hp
    cases hp
    rfl
  have hstale : ((putCancel soldOutState 0 none sampleEnv).2.products P1).map
      (fun p => (p.stock, p.inStock)) = some (2, false) := by decide
  refine ⟨hcons, by decide, hstale, ?_⟩
  intro h
  cases hp : (putCancel soldOutState 0 none sampleEnv).2.products P1 with
  | none => rw [hp] at hstale; simp at hstale
  | some p =>
    rw [hp] at hstale
    simp only [Option.map_some', Option.some.injEq, Prod.mk.injEq] at hstale
    have h1 := h P1 p hp
    rw [hstale.1, hstale.2] at h1
    simp at h1

/-! ## The order number -/

/-- C22, the code at the failing input: a new order without an order number, saved at the
sample clock reading with the draw 0.0421. The pre-save hook on its own would assign
`ORD-20240307-0421`, but `save` runs the validators first, the required `orderNumber` is
absent, the save is rejected, the hook never runs and nothing is stored; the placement of the
scenario, which creates its order without a number, stores no order. -/
theorem order_number_never_assigned :
    (Order.preSave ⟨0, { sampleOrder with orderNumber := "" }, true, false⟩
      sampleEnv).fields.orderNumber = "ORD-20240307-0421" ∧
    OrderDoc.save [] ⟨0, { sampleOrder with orderNumber := "" }, true, false⟩ sampleEnv =
      (.error "Order validation failed", []) ∧
    (postOrder sampleState sampleRequest sampleEnv).2.orders.map (fun o => o.orderNumber) =
      [] := by
  refine ⟨?_, rfl, by decide⟩
  have h : (Order.preSave ⟨0, { sampleOrder with orderNumber := "" }, true, false⟩
      sampleEnv).fields.orderNumber = generateOrderNumber sampleEnv := rfl
  rw [h, sample_orderNumber]

end ECommerce
